import Mathlib

/-!
Verification of the static-site generator `build_page.py`.

The program reads a directory of plain-text content files and renders a single
HTML page.  This development gives a shallow embedding of the program over
`List Char` (Python `str`) and `Fin 256` (bytes), and proves the frozen claims
about it.  Each Python function is translated under its source name.
-/

set_option maxHeartbeats 1000000

/-! ## Basic string helpers (Python `str` primitives used by the program) -/

/-- Python whitespace characters recognised by `str.strip()` (ASCII subset). -/
def pyIsSpace (c : Char) : Bool :=
  c == ' ' || c == '\t' || c == '\n' || c == '\x0d' || c == '\x0b' || c == '\x0c'

/-- Python `str.strip()`: drop leading and trailing whitespace. -/
def pyStrip (s : List Char) : List Char :=
  ((s.dropWhile pyIsSpace).reverse.dropWhile pyIsSpace).reverse

/-- Python falsy-string choice `a or b`: an empty string selects `b`. -/
def pyOr (a b : List Char) : List Char :=
  if a = [] then b else a

/-- Python `str.splitlines()` restricted to the line breaks `\n`, `\r`, `\r\n`. -/
def splitLinesAux : List Char → List Char → List (List Char)
  | [], acc => if acc = [] then [] else [acc.reverse]
  | '\x0d' :: '\n' :: rest, acc => acc.reverse :: splitLinesAux rest []
  | '\x0d' :: rest, acc => acc.reverse :: splitLinesAux rest []
  | '\n' :: rest, acc => acc.reverse :: splitLinesAux rest []
  | c :: rest, acc => splitLinesAux rest (c :: acc)

/-- Python `s.splitlines()` (the final line is kept only when non-empty, as in
Python). -/
def splitLines (s : List Char) : List (List Char) :=
  splitLinesAux s []

/-- The ubiquitous pattern `[line.strip() for line in text.splitlines() if line.strip()]`. -/
def cleanLines (s : List Char) : List (List Char) :=
  ((splitLines s).map pyStrip).filter (fun l => l ≠ [])

/-- Split a string at the first occurrence of `c`; `some (p, r)` means
`s = p ++ c :: r` with `c ∉ p` (the behaviour of `str.find`). -/
def takeUntil (c : Char) : List Char → Option (List Char × List Char)
  | [] => none
  | x :: xs =>
    if x = c then some ([], xs)
    else (takeUntil c xs).map fun p => (x :: p.1, p.2)

theorem takeUntil_eq (c : Char) :
    ∀ (s p r : List Char), takeUntil c s = some (p, r) → s = p ++ c :: r := by
  intro s
  induction s with
  | nil => intro p r h; simp [takeUntil] at h
  | cons x xs ih =>
    intro p r h
    rw [takeUntil] at h
    split at h
    · next hx =>
      simp only [Option.some.injEq, Prod.mk.injEq] at h
      obtain ⟨h1, h2⟩ := h
      subst h1; subst h2; subst hx
      rfl
    · rw [Option.map_eq_some'] at h
      obtain ⟨⟨q1, q2⟩, hq, hf⟩ := h
      simp only [Prod.mk.injEq] at hf
      obtain ⟨hf1, hf2⟩ := hf
      subst hf1; subst hf2
      rw [ih q1 q2 hq]
      rfl

theorem takeUntil_not_mem (c : Char) :
    ∀ (s p r : List Char), takeUntil c s = some (p, r) → c ∉ p := by
  intro s
  induction s with
  | nil => intro p r h; simp [takeUntil] at h
  | cons x xs ih =>
    intro p r h
    rw [takeUntil] at h
    split at h
    · next hx =>
      simp only [Option.some.injEq, Prod.mk.injEq] at h
      obtain ⟨h1, _⟩ := h
      subst h1
      simp
    · next hx =>
      rw [Option.map_eq_some'] at h
      obtain ⟨⟨q1, q2⟩, hq, hf⟩ := h
      simp only [Prod.mk.injEq] at hf
      obtain ⟨hf1, hf2⟩ := hf
      subst hf1; subst hf2
      intro hmem
      rcases List.mem_cons.mp hmem with h1 | h2
      · exact hx h1.symm
      · exact ih q1 q2 hq h2

theorem takeUntil_none (c : Char) :
    ∀ (s : List Char), c ∉ s → takeUntil c s = none := by
  intro s
  induction s with
  | nil => intro _; rfl
  | cons x xs ih =>
    intro h
    have hx : ¬ x = c := fun he => h (by simp [he])
    have hxs : c ∉ xs := fun hm => h (List.mem_cons_of_mem _ hm)
    simp [takeUntil, hx, ih hxs]

theorem takeUntil_length (c : Char) (s p r : List Char)
    (h : takeUntil c s = some (p, r)) : s.length = p.length + 1 + r.length := by
  rw [takeUntil_eq c s p r h]
  simp
  omega

/-- Parse a run of decimal digits as `int()` does. -/
def digitsToNat (ds : List Char) : Nat :=
  ds.foldl (fun acc c => acc * 10 + (c.toNat - ('0').toNat)) 0

/-- Python format `{n:02d}`: decimal digits left-padded with `0` to width 2. -/
def pad02 (n : Nat) : List Char :=
  let ds := Nat.toDigits 10 n
  if ds.length < 2 then '0' :: ds else ds

/-- Python `str(n)` for a natural number. -/
def natStr (n : Nat) : List Char :=
  Nat.toDigits 10 n

/-! ## `esc` (Python `html.escape(text, quote=True)`)

`html.escape` performs five sequential `str.replace` passes (`&`, `<`, `>`,
`"`, `'`); because the first pass escapes every original ampersand and later
passes introduce `&` only inside already-final entities, the composite is the
character-wise map below. -/

/-- Escape of one character under `html.escape(·, quote=True)`. -/
def escChar (c : Char) : List Char :=
  if c = '&' then ("&amp;").data
  else if c = '<' then ("&lt;").data
  else if c = '>' then ("&gt;").data
  else if c = '\x22' then ("&quot;").data
  else if c = '\x27' then ("&#x27;").data
  else [c]

/-- The program helper `esc`. -/
def esc (s : List Char) : List Char :=
  s.flatMap escChar

/-! ## `render_inline` (the inline-markup renderer)

The Python source scans `text` left to right with an index `i`.  We model the
scan as recursion on the remaining suffix.  At each position the source tries,
in this order: the link regex `<link:"([^"]+)"=([^>]+)>` (only when
`allow_links`), a terminated `**...**` marker (`text.find("**", i + 2)`), a
terminated `*...*` marker (`text.find("*", i + 1)`), and finally the literal
escape of one character. -/

/-- Result of `re.match(r'<link:"([^"]+)"=([^>]+)>', s)`: the link text, the
URL, and the remainder of the string after the match.  Both captured groups are
greedy runs that cannot cross their closing delimiter, so the regex reduces to
the first `"` after `<link:"` and the first `>` after `=`. -/
def matchLink : List Char → Option (List Char × List Char × List Char)
  | '<' :: 'l' :: 'i' :: 'n' :: 'k' :: ':' :: '\x22' :: rest =>
    match takeUntil '\x22' rest with
    | some (t, rest2) =>
      if t = [] then none
      else
        match rest2 with
        | '=' :: rest3 =>
          match takeUntil '>' rest3 with
          | some (u, rest4) => if u = [] then none else some (t, u, rest4)
          | none => none
        | _ => none
    | none => none
  | _ => none

theorem matchLink_length {s t u r : List Char} (h : matchLink s = some (t, u, r)) :
    s.length = t.length + u.length + r.length + 10 := by
  rw [matchLink.eq_def] at h
  split at h
  · next rest =>
    split at h
    · next t2 rest2 htu =>
      split at h
      · exact absurd h (by simp)
      · split at h
        · next rest3 =>
          split at h
          · next u2 rest4 huv =>
            split at h
            · exact absurd h (by simp)
            · simp only [Option.some.injEq, Prod.mk.injEq] at h
              have e1 := takeUntil_length '\x22' rest t2 ('=' :: rest3) htu
              have e2 := takeUntil_length '>' rest3 u2 rest4 huv
              obtain ⟨h1, h2, h3⟩ := h
              subst h1; subst h2; subst h3
              simp at e1 e2 ⊢
              omega
          · exact absurd h (by simp)
        · exact absurd h (by simp)
    · exact absurd h (by simp)
  · exact absurd h (by simp)

theorem matchLink_none_of_head {c : Char} {rest : List Char} (h : c ≠ '<') :
    matchLink (c :: rest) = none := by
  rw [matchLink.eq_def]
  split
  · next heq =>
    exfalso
    have hh := congrArg List.head? heq
    simp only [List.head?_cons, Option.some.injEq] at hh
    exact h hh
  · rfl

/-- Locate the first occurrence of `**` (as `text.find("**")` would):
`some (p, r)` means the input is `p ++ '*' :: '*' :: r` with no earlier `**`. -/
def splitStarStar : List Char → Option (List Char × List Char)
  | [] => none
  | [_] => none
  | c :: d :: rest =>
    if c = '*' ∧ d = '*' then some ([], rest)
    else (splitStarStar (d :: rest)).map fun p => (c :: p.1, p.2)

theorem splitStarStar_eq :
    ∀ (s p r : List Char), splitStarStar s = some (p, r) → s = p ++ '*' :: '*' :: r := by
  intro s
  induction s with
  | nil => intro p r h; simp [splitStarStar] at h
  | cons c tail ih =>
    intro p r h
    match tail with
    | [] => simp [splitStarStar] at h
    | d :: rest =>
      rw [splitStarStar] at h
      split at h
      · next hcd =>
        simp only [Option.some.injEq, Prod.mk.injEq] at h
        obtain ⟨h1, h2⟩ := h
        subst h1; subst h2
        rw [hcd.1, hcd.2]
        rfl
      · rw [Option.map_eq_some'] at h
        obtain ⟨⟨q1, q2⟩, hq, hf⟩ := h
        simp only [Prod.mk.injEq] at hf
        obtain ⟨hf1, hf2⟩ := hf
        subst hf1; subst hf2
        rw [ih q1 q2 hq]
        rfl

/-- One step of the scanning loop in `render_inline`: which branch fires at the
current position (head character `c`, remaining characters `rest`). -/
inductive ScanStep where
  | link : List Char → List Char → List Char → ScanStep
  | bold : List Char → List Char → ScanStep
  | lit : Char → List Char → ScanStep
deriving DecidableEq


/-- The non-link part of the loop body: `**` with a closing `**`, then `*`
with a closing `*`, then a single literally-escaped character. -/
def starStep (c : Char) (rest : List Char) : ScanStep :=
  if c = '*' then
    match rest with
    | '*' :: rest2 =>
      match splitStarStar rest2 with
      | some p => .bold p.1 p.2
      | none =>
        match takeUntil '*' rest with
        | some p => .bold p.1 p.2
        | none => .lit c rest
    | _ =>
      match takeUntil '*' rest with
      | some p => .bold p.1 p.2
      | none => .lit c rest
  else .lit c rest

/-- Branch selection of the `while` loop body of `render_inline`, in source
order: link marker (guarded by `allow_links`), then the `*` branches. -/
def scanStep (allow_links : Bool) (c : Char) (rest : List Char) : ScanStep :=
  match (if allow_links then matchLink (c :: rest) else none) with
  | some tur => .link tur.1 tur.2.1 tur.2.2
  | none => starStep c rest

theorem starStep_not_link {c : Char} {rest t u r : List Char}
    (h : starStep c rest = .link t u r) : False := by
  unfold starStep at h
  split at h
  · split at h
    · split at h
      · simp at h
      · split at h
        · simp at h
        · simp at h
    · split at h
      · simp at h
      · simp at h
  · simp at h

theorem scanStep_link {al : Bool} {c : Char} {rest t u r : List Char}
    (h : scanStep al c rest = .link t u r) :
    matchLink (c :: rest) = some (t, u, r) := by
  unfold scanStep at h
  split at h
  · next tur heq =>
    simp only [ScanStep.link.injEq] at h
    obtain ⟨h1, h2, h3⟩ := h
    subst h1; subst h2; subst h3
    by_cases hal : al = true
    · rw [hal] at heq
      simpa using heq
    · rw [if_neg hal] at heq
      exact absurd heq (by simp)
  · exact absurd h starStep_not_link

theorem starStep_bold {c : Char} {rest inner after : List Char}
    (h : starStep c rest = .bold inner after) :
    inner.length + after.length + 2 ≤ (c :: rest).length := by
  unfold starStep at h
  split at h
  · split at h
    · split at h
      · next p hss =>
        simp only [ScanStep.bold.injEq] at h
        obtain ⟨h1, h2⟩ := h
        subst h1; subst h2
        have he := splitStarStar_eq _ p.1 p.2 (by rw [hss])
        rw [he]
        simp
        omega
      · split at h
        · next p htu =>
          simp only [ScanStep.bold.injEq] at h
          obtain ⟨h1, h2⟩ := h
          subst h1; subst h2
          have he := takeUntil_eq '*' _ p.1 p.2 (by rw [htu])
          rw [he]
          simp
          omega
        · simp at h
    · split at h
      · next p htu =>
        simp only [ScanStep.bold.injEq] at h
        obtain ⟨h1, h2⟩ := h
        subst h1; subst h2
        have he := takeUntil_eq '*' _ p.1 p.2 (by rw [htu])
        rw [he]
        simp
        omega
      · simp at h
  · simp at h

theorem scanStep_bold {al : Bool} {c : Char} {rest inner after : List Char}
    (h : scanStep al c rest = .bold inner after) :
    inner.length + after.length + 2 ≤ (c :: rest).length := by
  unfold scanStep at h
  split at h
  · simp at h
  · exact starStep_bold h

theorem starStep_lit {c : Char} {rest : List Char} {c2 : Char} {rest2 : List Char}
    (h : starStep c rest = .lit c2 rest2) : c2 = c ∧ rest2 = rest := by
  unfold starStep at h
  split at h
  · split at h
    · split at h
      · simp at h
      · split at h
        · simp at h
        · simp only [ScanStep.lit.injEq] at h
          exact ⟨h.1.symm, h.2.symm⟩
    · split at h
      · simp at h
      · simp only [ScanStep.lit.injEq] at h
        exact ⟨h.1.symm, h.2.symm⟩
  · simp only [ScanStep.lit.injEq] at h
    exact ⟨h.1.symm, h.2.symm⟩

theorem scanStep_lit {al : Bool} {c : Char} {rest : List Char} {c2 : Char} {rest2 : List Char}
    (h : scanStep al c rest = .lit c2 rest2) : c2 = c ∧ rest2 = rest := by
  unfold scanStep at h
  split at h
  · simp at h
  · exact starStep_lit h

/-- The program function `render_inline(text, allow_links=True)`.  Recursion on
the remaining suffix replaces the source's index-based `while` loop; every
recursive call is on a strictly shorter substring (see the `scanStep` length
lemmas used in the termination proof). -/
def render_inline (text : List Char) (allow_links : Bool) : List Char :=
  match text with
  | [] => []
  | c :: rest =>
    match h : scanStep allow_links c rest with
    | .link t u r =>
      ("<a href=\x22").data ++ esc (pyStrip u)
        ++ ("\x22 target=\x22_blank\x22 rel=\x22noopener\x22>").data
        ++ render_inline t false ++ ("</a>").data ++ render_inline r allow_links
    | .bold inner after =>
      ("<strong>").data ++ render_inline inner allow_links ++ ("</strong>").data
        ++ render_inline after allow_links
    | .lit c2 rest2 => escChar c2 ++ render_inline rest2 allow_links
termination_by text.length
decreasing_by
  · have hl := matchLink_length (scanStep_link h)
    simp at hl ⊢
    omega
  · have hl := matchLink_length (scanStep_link h)
    simp at hl ⊢
    omega
  · have hb := scanStep_bold h
    simp at hb ⊢
    omega
  · have hb := scanStep_bold h
    simp at hb ⊢
    omega
  · have hl := (scanStep_lit h).2
    subst hl
    simp

/-! ## `normalize_text` and the footer section-link resolver -/

/-- Unicode NFD decomposition (`unicodedata.normalize("NFD", ·)`), modelled on
the Latin-1 block (the alphabet of the program's Spanish content) and the
identity elsewhere; generated from the Unicode decomposition data for
U+0080..U+00FF. -/
def nfdChar (c : Char) : List Char :=
  match c.toNat with
  | 0xC0 => [Char.ofNat 0x0041, Char.ofNat 0x0300]
  | 0xC1 => [Char.ofNat 0x0041, Char.ofNat 0x0301]
  | 0xC2 => [Char.ofNat 0x0041, Char.ofNat 0x0302]
  | 0xC3 => [Char.ofNat 0x0041, Char.ofNat 0x0303]
  | 0xC4 => [Char.ofNat 0x0041, Char.ofNat 0x0308]
  | 0xC5 => [Char.ofNat 0x0041, Char.ofNat 0x030A]
  | 0xC7 => [Char.ofNat 0x0043, Char.ofNat 0x0327]
  | 0xC8 => [Char.ofNat 0x0045, Char.ofNat 0x0300]
  | 0xC9 => [Char.ofNat 0x0045, Char.ofNat 0x0301]
  | 0xCA => [Char.ofNat 0x0045, Char.ofNat 0x0302]
  | 0xCB => [Char.ofNat 0x0045, Char.ofNat 0x0308]
  | 0xCC => [Char.ofNat 0x0049, Char.ofNat 0x0300]
  | 0xCD => [Char.ofNat 0x0049, Char.ofNat 0x0301]
  | 0xCE => [Char.ofNat 0x0049, Char.ofNat 0x0302]
  | 0xCF => [Char.ofNat 0x0049, Char.ofNat 0x0308]
  | 0xD1 => [Char.ofNat 0x004E, Char.ofNat 0x0303]
  | 0xD2 => [Char.ofNat 0x004F, Char.ofNat 0x0300]
  | 0xD3 => [Char.ofNat 0x004F, Char.ofNat 0x0301]
  | 0xD4 => [Char.ofNat 0x004F, Char.ofNat 0x0302]
  | 0xD5 => [Char.ofNat 0x004F, Char.ofNat 0x0303]
  | 0xD6 => [Char.ofNat 0x004F, Char.ofNat 0x0308]
  | 0xD9 => [Char.ofNat 0x0055, Char.ofNat 0x0300]
  | 0xDA => [Char.ofNat 0x0055, Char.ofNat 0x0301]
  | 0xDB => [Char.ofNat 0x0055, Char.ofNat 0x0302]
  | 0xDC => [Char.ofNat 0x0055, Char.ofNat 0x0308]
  | 0xDD => [Char.ofNat 0x0059, Char.ofNat 0x0301]
  | 0xE0 => [Char.ofNat 0x0061, Char.ofNat 0x0300]
  | 0xE1 => [Char.ofNat 0x0061, Char.ofNat 0x0301]
  | 0xE2 => [Char.ofNat 0x0061, Char.ofNat 0x0302]
  | 0xE3 => [Char.ofNat 0x0061, Char.ofNat 0x0303]
  | 0xE4 => [Char.ofNat 0x0061, Char.ofNat 0x0308]
  | 0xE5 => [Char.ofNat 0x0061, Char.ofNat 0x030A]
  | 0xE7 => [Char.ofNat 0x0063, Char.ofNat 0x0327]
  | 0xE8 => [Char.ofNat 0x0065, Char.ofNat 0x0300]
  | 0xE9 => [Char.ofNat 0x0065, Char.ofNat 0x0301]
  | 0xEA => [Char.ofNat 0x0065, Char.ofNat 0x0302]
  | 0xEB => [Char.ofNat 0x0065, Char.ofNat 0x0308]
  | 0xEC => [Char.ofNat 0x0069, Char.ofNat 0x0300]
  | 0xED => [Char.ofNat 0x0069, Char.ofNat 0x0301]
  | 0xEE => [Char.ofNat 0x0069, Char.ofNat 0x0302]
  | 0xEF => [Char.ofNat 0x0069, Char.ofNat 0x0308]
  | 0xF1 => [Char.ofNat 0x006E, Char.ofNat 0x0303]
  | 0xF2 => [Char.ofNat 0x006F, Char.ofNat 0x0300]
  | 0xF3 => [Char.ofNat 0x006F, Char.ofNat 0x0301]
  | 0xF4 => [Char.ofNat 0x006F, Char.ofNat 0x0302]
  | 0xF5 => [Char.ofNat 0x006F, Char.ofNat 0x0303]
  | 0xF6 => [Char.ofNat 0x006F, Char.ofNat 0x0308]
  | 0xF9 => [Char.ofNat 0x0075, Char.ofNat 0x0300]
  | 0xFA => [Char.ofNat 0x0075, Char.ofNat 0x0301]
  | 0xFB => [Char.ofNat 0x0075, Char.ofNat 0x0302]
  | 0xFC => [Char.ofNat 0x0075, Char.ofNat 0x0308]
  | 0xFD => [Char.ofNat 0x0079, Char.ofNat 0x0301]
  | 0xFF => [Char.ofNat 0x0079, Char.ofNat 0x0308]
  | _ => [c]

/-- Combining-mark test (`unicodedata.category(ch) == "Mn"`), modelled on the
Combining Diacritical Marks block, which contains every mark produced by
`nfdChar`. -/
def isMn (c : Char) : Bool :=
  0x300 ≤ c.toNat && c.toNat ≤ 0x36F

/-- ASCII lower-case letters and digits, the alphabet kept by
`re.sub(r"[^a-z0-9]+", "", ·)`. -/
def isLowerAlnum (c : Char) : Bool :=
  (('a' ≤ c) && (c ≤ 'z')) || (('0' ≤ c) && (c ≤ '9'))

/-- The program function `normalize_text`: NFD-decompose, drop combining
marks, lower-case, and keep only ASCII lower-case alphanumerics. -/
def normalize_text (text : List Char) : List Char :=
  let normalized := text.flatMap nfdChar
  let stripped := normalized.filter fun ch => !(isMn ch)
  (stripped.map Char.toLower).filter isLowerAlnum

/-- Substring containment, Python `needle in hay`. -/
def isSubstr (needle : List Char) : List Char → Bool
  | [] => needle.isEmpty
  | c :: t => needle.isPrefixOf (c :: t) || isSubstr needle t


/-- Core of `split_full_link`'s regex `^(.*?)\s*<([^>]+)>\s*$`: find the first
`<` whose bracketed non-empty `[^>]+` run is closed by `>` followed only by
whitespace; `some (before, url)` returns the text before that `<` and the raw
URL inside the brackets. -/
def sflAux : List Char → Option (List Char × List Char)
  | [] => none
  | c :: rest =>
    if c = '<' then
      match takeUntil '>' rest with
      | some (u, rest2) =>
        if u ≠ [] ∧ rest2.all pyIsSpace then some ([], u)
        else (sflAux rest).map fun p => (c :: p.1, p.2)
      | none => (sflAux rest).map fun p => (c :: p.1, p.2)
    else (sflAux rest).map fun p => (c :: p.1, p.2)

/-- The program function `split_full_link`: split a `text <url>` line into the
stripped text and the stripped URL, or return the line unchanged with no URL. -/
def split_full_link (text : List Char) : List Char × Option (List Char) :=
  match sflAux text with
  | some (b, u) => (pyStrip b, some (pyStrip u))
  | none => (text, none)

/-- Leftmost match of the pattern `<[^>]+>` used by
`re.split(r"(<[^>]+>)", text)`: `some (before, matched, after)`. -/
def splitAngleAux : List Char → Option (List Char × List Char × List Char)
  | [] => none
  | c :: rest =>
    if c = '<' then
      match takeUntil '>' rest with
      | some (inner, rest2) =>
        if inner ≠ [] then some ([], '<' :: (inner ++ ['>']), rest2)
        else (splitAngleAux rest).map fun p => (c :: p.1, p.2.1, p.2.2)
      | none => (splitAngleAux rest).map fun p => (c :: p.1, p.2.1, p.2.2)
    else (splitAngleAux rest).map fun p => (c :: p.1, p.2.1, p.2.2)

theorem splitAngleAux_eq :
    ∀ (s b m a : List Char), splitAngleAux s = some (b, m, a) → s = b ++ m ++ a ∧ 2 ≤ m.length := by
  intro s
  induction s with
  | nil => intro b m a h; simp [splitAngleAux] at h
  | cons c rest ih =>
    intro b m a h
    rw [splitAngleAux] at h
    by_cases hc : c = '<'
    · rw [if_pos hc] at h
      split at h
      · next u rest2 htu =>
        split at h
        · simp only [Option.some.injEq, Prod.mk.injEq] at h
          obtain ⟨h1, h2, h3⟩ := h
          subst h1; subst h2; subst h3
          constructor
          · have he := takeUntil_eq '>' rest u _ htu
            rw [hc, he]
            simp
          · simp only [List.length_cons, List.length_append, List.length_singleton]
            omega
        · rw [Option.map_eq_some'] at h
          obtain ⟨⟨q1, q2, q3⟩, hq, hf⟩ := h
          simp only [Prod.mk.injEq] at hf
          obtain ⟨hf1, hf2, hf3⟩ := hf
          subst hf1; subst hf2; subst hf3
          obtain ⟨he, hm⟩ := ih q1 q2 q3 hq
          exact ⟨by rw [he]; rfl, hm⟩
      · rw [Option.map_eq_some'] at h
        obtain ⟨⟨q1, q2, q3⟩, hq, hf⟩ := h
        simp only [Prod.mk.injEq] at hf
        obtain ⟨hf1, hf2, hf3⟩ := hf
        subst hf1; subst hf2; subst hf3
        obtain ⟨he, hm⟩ := ih q1 q2 q3 hq
        exact ⟨by rw [he]; rfl, hm⟩
    · rw [if_neg hc] at h
      rw [Option.map_eq_some'] at h
      obtain ⟨⟨q1, q2, q3⟩, hq, hf⟩ := h
      simp only [Prod.mk.injEq] at hf
      obtain ⟨hf1, hf2, hf3⟩ := hf
      subst hf1; subst hf2; subst hf3
      obtain ⟨he, hm⟩ := ih q1 q2 q3 hq
      exact ⟨by rw [he]; rfl, hm⟩

/-- Python `re.split(r"(<[^>]+>)", text)`: the list of non-matching segments
interleaved with the captured `<...>` matches. -/
def splitAngle (s : List Char) : List (List Char) :=
  match hs : splitAngleAux s with
  | none => [s]
  | some (b, m, a) => b :: m :: splitAngle a
termination_by s.length
decreasing_by
  have := splitAngleAux_eq s b m a hs
  simp [this.1]
  omega

/-- One accordion item line: `{"text": ..., "url": ...}` (empty `url` for a
plain line), from `parse_sections`. -/
structure SectItem where
  text : List Char
  url : List Char
deriving DecidableEq, Repr

/-- One accordion section: `{"order": ..., "title": ..., "items": ...}`. -/
structure Sect where
  order : Nat
  title : List Char
  items : List SectItem
deriving DecidableEq, Repr

/-- Rendering of one part produced by `re.split` in
`render_footer_with_section_links`: a bracketed part is resolved against the
section titles, all other parts are rendered as inline markup. -/
def renderPart (sections : List Sect) (part : List Char) : List Char :=
  if part.head? = some '<' ∧ part.getLast? = some '>' then
    let label := pyStrip ((part.drop 1).dropLast)
    let needle := normalize_text label
    match sections.find? (fun sec => !needle.isEmpty && isSubstr needle (normalize_text sec.title)) with
    | some sec =>
      ("<a class=\x22indicator-link\x22 href=\x22#\x22 data-open=\x22").data
        ++ (("sec-").data ++ pad02 sec.order) ++ ("\x22>").data
        ++ render_inline label true ++ ("</a>").data
    | none => render_inline label true
  else render_inline part true

/-- The program function `render_footer_with_section_links`. -/
def render_footer_with_section_links (text : List Char) (sections : List Sect) : List Char :=
  if text = [] then []
  else ((splitAngle text).map (renderPart sections)).flatten

/-! ## `read_text` (encoding-sniffing file reader)

The file's raw bytes are modelled as `List (Fin 256)`.  `read_text` tries
`utf-8-sig`, `cp1252` and `latin-1` in order, catching `UnicodeDecodeError`,
and falls back to `errors="replace"` decoding; a strict decoder is modelled as
an `Option`-valued function (`none` = the codec raises). -/

/-- A continuation byte `0x80..0xBF`. -/
def isCont (b : Fin 256) : Bool :=
  0x80 ≤ b.val && b.val ≤ 0xBF

/-- Strict UTF-8 decoding (Python codec `utf-8`): rejects overlong forms,
surrogates and code points above U+10FFFF via the standard lead/continuation
ranges. -/
def utf8_decode : List (Fin 256) → Option (List Char)
  | [] => some []
  | b :: rest =>
    if b.val ≤ 0x7F then
      (utf8_decode rest).map fun cs => Char.ofNat b.val :: cs
    else if 0xC2 ≤ b.val ∧ b.val ≤ 0xDF then
      match rest with
      | b2 :: rest2 =>
        if isCont b2 then
          (utf8_decode rest2).map fun cs =>
            Char.ofNat ((b.val - 0xC0) * 0x40 + (b2.val - 0x80)) :: cs
        else none
      | [] => none
    else if 0xE0 ≤ b.val ∧ b.val ≤ 0xEF then
      match rest with
      | b2 :: b3 :: rest3 =>
        if (if b.val = 0xE0 then 0xA0 ≤ b2.val && b2.val ≤ 0xBF
            else if b.val = 0xED then 0x80 ≤ b2.val && b2.val ≤ 0x9F
            else isCont b2) && isCont b3 then
          (utf8_decode rest3).map fun cs =>
            Char.ofNat ((b.val - 0xE0) * 0x1000 + (b2.val - 0x80) * 0x40 + (b3.val - 0x80)) :: cs
        else none
      | _ => none
    else if 0xF0 ≤ b.val ∧ b.val ≤ 0xF4 then
      match rest with
      | b2 :: b3 :: b4 :: rest4 =>
        if (if b.val = 0xF0 then 0x90 ≤ b2.val && b2.val ≤ 0xBF
            else if b.val = 0xF4 then 0x80 ≤ b2.val && b2.val ≤ 0x8F
            else isCont b2) && isCont b3 && isCont b4 then
          (utf8_decode rest4).map fun cs =>
            Char.ofNat ((b.val - 0xF0) * 0x40000 + (b2.val - 0x80) * 0x1000
              + (b3.val - 0x80) * 0x40 + (b4.val - 0x80)) :: cs
        else none
      | _ => none
    else none

/-- Python codec `utf-8-sig`: strip a UTF-8 byte-order mark, then decode. -/
def utf8_sig_decode (bs : List (Fin 256)) : Option (List Char) :=
  match bs with
  | 0xEF :: 0xBB :: 0xBF :: rest => utf8_decode rest
  | _ => utf8_decode bs

/-- The Windows-1252 mapping of one byte: ASCII and `0xA0..0xFF` map to the
same code point, `0x80..0x9F` map through the cp1252 table, whose five holes
(`0x81, 0x8D, 0x8F, 0x90, 0x9D`) raise in Python. -/
def cp1252_char (b : Fin 256) : Option Char :=
  if b.val ≤ 0x7F ∨ 0xA0 ≤ b.val then some (Char.ofNat b.val)
  else match b.val with
  | 0x80 => some (Char.ofNat 0x20AC)
  | 0x82 => some (Char.ofNat 0x201A)
  | 0x83 => some (Char.ofNat 0x0192)
  | 0x84 => some (Char.ofNat 0x201E)
  | 0x85 => some (Char.ofNat 0x2026)
  | 0x86 => some (Char.ofNat 0x2020)
  | 0x87 => some (Char.ofNat 0x2021)
  | 0x88 => some (Char.ofNat 0x02C6)
  | 0x89 => some (Char.ofNat 0x2030)
  | 0x8A => some (Char.ofNat 0x0160)
  | 0x8B => some (Char.ofNat 0x2039)
  | 0x8C => some (Char.ofNat 0x0152)
  | 0x8E => some (Char.ofNat 0x017D)
  | 0x91 => some (Char.ofNat 0x2018)
  | 0x92 => some (Char.ofNat 0x2019)
  | 0x93 => some (Char.ofNat 0x201C)
  | 0x94 => some (Char.ofNat 0x201D)
  | 0x95 => some (Char.ofNat 0x2022)
  | 0x96 => some (Char.ofNat 0x2013)
  | 0x97 => some (Char.ofNat 0x2014)
  | 0x98 => some (Char.ofNat 0x02DC)
  | 0x99 => some (Char.ofNat 0x2122)
  | 0x9A => some (Char.ofNat 0x0161)
  | 0x9B => some (Char.ofNat 0x203A)
  | 0x9C => some (Char.ofNat 0x0153)
  | 0x9E => some (Char.ofNat 0x017E)
  | 0x9F => some (Char.ofNat 0x0178)
  | _ => none

/-- Strict cp1252 decoding of a byte string. -/
def cp1252_decode : List (Fin 256) → Option (List Char)
  | [] => some []
  | b :: rest =>
    match cp1252_char b, cp1252_decode rest with
    | some c, some cs => some (c :: cs)
    | _, _ => none

/-- Strict latin-1 decoding: every byte is its own code point, so this codec
accepts every byte string (it still carries the `Option` of a strict codec). -/
def latin1_decode (bs : List (Fin 256)) : Option (List Char) :=
  some (bs.map fun b => Char.ofNat b.val)

/-- UTF-8 decoding with `errors="replace"`: a malformed sequence contributes
one U+FFFD for its maximal valid subpart and decoding continues. -/
def utf8_replace_decode (bs : List (Fin 256)) : List Char :=
  match bs with
  | [] => []
  | b :: rest =>
    if b.val ≤ 0x7F then
      Char.ofNat b.val :: utf8_replace_decode rest
    else if 0xC2 ≤ b.val ∧ b.val ≤ 0xDF then
      match h2 : rest with
      | b2 :: rest2 =>
        if isCont b2 then
          Char.ofNat ((b.val - 0xC0) * 0x40 + (b2.val - 0x80)) :: utf8_replace_decode rest2
        else Char.ofNat 0xFFFD :: utf8_replace_decode rest
      | [] => [Char.ofNat 0xFFFD]
    else if 0xE0 ≤ b.val ∧ b.val ≤ 0xEF then
      match h2 : rest with
      | b2 :: rest2 =>
        if (if b.val = 0xE0 then 0xA0 ≤ b2.val && b2.val ≤ 0xBF
            else if b.val = 0xED then 0x80 ≤ b2.val && b2.val ≤ 0x9F
            else isCont b2) then
          match h3 : rest2 with
          | b3 :: rest3 =>
            if isCont b3 then
              Char.ofNat ((b.val - 0xE0) * 0x1000 + (b2.val - 0x80) * 0x40 + (b3.val - 0x80))
                :: utf8_replace_decode rest3
            else Char.ofNat 0xFFFD :: utf8_replace_decode rest2
          | [] => [Char.ofNat 0xFFFD]
        else Char.ofNat 0xFFFD :: utf8_replace_decode rest
      | [] => [Char.ofNat 0xFFFD]
    else if 0xF0 ≤ b.val ∧ b.val ≤ 0xF4 then
      match h2 : rest with
      | b2 :: rest2 =>
        if (if b.val = 0xF0 then 0x90 ≤ b2.val && b2.val ≤ 0xBF
            else if b.val = 0xF4 then 0x80 ≤ b2.val && b2.val ≤ 0x8F
            else isCont b2) then
          match h3 : rest2 with
          | b3 :: rest3 =>
            if isCont b3 then
              match h4 : rest3 with
              | b4 :: rest4 =>
                if isCont b4 then
                  Char.ofNat ((b.val - 0xF0) * 0x40000 + (b2.val - 0x80) * 0x1000
                    + (b3.val - 0x80) * 0x40 + (b4.val - 0x80)) :: utf8_replace_decode rest4
                else Char.ofNat 0xFFFD :: utf8_replace_decode rest3
              | [] => [Char.ofNat 0xFFFD]
            else Char.ofNat 0xFFFD :: utf8_replace_decode rest2
          | [] => [Char.ofNat 0xFFFD]
        else Char.ofNat 0xFFFD :: utf8_replace_decode rest
      | [] => [Char.ofNat 0xFFFD]
    else Char.ofNat 0xFFFD :: utf8_replace_decode rest
termination_by bs.length
decreasing_by all_goals simp_all [List.length_cons] <;> omega

/-- The program function `read_text`: try `utf-8-sig`, `cp1252`, `latin-1` in
order, falling back to replacement-character decoding when every strict codec
raises. -/
def read_text (bs : List (Fin 256)) : List Char :=
  match utf8_sig_decode bs with
  | some s => s
  | none =>
    match cp1252_decode bs with
    | some s => s
    | none =>
      match latin1_decode bs with
      | some s => s
      | none => utf8_replace_decode bs

/-! ## Content model and parsers

The content directory is modelled abstractly: each named file is an optional
decoded text, each globbed collection a list of named files.  File contents
are the strings produced by `read_text`. -/

/-- A source file: its name and decoded text content. -/
structure RFile where
  name : List Char
  content : List Char
deriving DecidableEq, Repr

/-- Python `" ".join` over lines. -/
def joinSpace (xs : List (List Char)) : List Char :=
  List.intercalate [' '] xs

/-- Python `"\n".join`. -/
def joinNl (xs : List (List Char)) : List Char :=
  List.intercalate ['\n'] xs

/-- The program function `parse_title`: first three non-blank lines of
`Titulo.txt` (each defaulting to empty). -/
def parse_title (titulo : Option (List Char)) : List Char × List Char × List Char :=
  match titulo with
  | none => ([], [], [])
  | some txt =>
    let lines := cleanLines txt
    (lines.getD 0 [], lines.getD 1 [], lines.getD 2 [])

/-- The program function `parse_body`: the non-blank lines of `Cuerpo.txt`. -/
def parse_body (cuerpo : Option (List Char)) : List (List Char) :=
  match cuerpo with
  | none => []
  | some txt => cleanLines txt

/-- Filename match `^Des(\d+)-(.+)\.txt$`: the numeric order and the stripped
title.  A greedy digit run must be followed by `-`; the greedy `(.+)` with
anchored `\.txt$` captures everything up to the final `.txt`.  (The `Des*.txt`
glob that precedes this regex in the source is subsumed by the regex.) -/
def matchDes (name : List Char) : Option (Nat × List Char) :=
  match name with
  | 'D' :: 'e' :: 's' :: rest =>
    let ds := rest.takeWhile Char.isDigit
    let rest2 := rest.dropWhile Char.isDigit
    if ds = [] then none
    else
      match rest2 with
      | '-' :: rest3 =>
        if 4 < rest3.length ∧ (".txt").data.isSuffixOf rest3 then
          some (digitsToNat ds, pyStrip (rest3.take (rest3.length - 4)))
        else none
      | _ => none
  | _ => none

/-- One accordion item line, via the same regex `^(.*?)\s*<([^>]+)>\s*$` as
`split_full_link`: a matched line becomes a text/url pair, any other line a
plain item with empty url. -/
def sectItemOfLine (line : List Char) : SectItem :=
  match split_full_link line with
  | (t, some u) => { text := t, url := u }
  | (_, none) => { text := line, url := [] }

/-- Sort key of `sorted(sections, key=lambda s: s["order"])`. -/
def secLe (a b : Sect) : Prop :=
  a.order ≤ b.order

instance : DecidableRel secLe := fun a b => Nat.decLe a.order b.order

instance : IsTotal Sect secLe := ⟨fun a b => Nat.le_total a.order b.order⟩

instance : IsTrans Sect secLe := ⟨fun _ _ _ => Nat.le_trans⟩

/-- The program function `parse_sections`: parse every `Des<N>-<Title>.txt`
file of the `Despegables` directory (in enumeration order) and sort the
sections by order.  Python's `sorted` is a stable sort by the `order` key,
modelled by `List.insertionSort`. -/
def parse_sections (despegables : Option (List RFile)) : List Sect :=
  match despegables with
  | none => []
  | some files =>
    let sections := files.filterMap fun f =>
      match matchDes f.name with
      | some (order, title) =>
        some { order := order, title := title, items := (cleanLines f.content).map sectItemOfLine }
      | none => none
    sections.insertionSort secLe

/-- One button-group directory under `Botones/`: its name and contained
`*.txt` files in enumeration order. -/
structure BGroupSrc where
  name : List Char
  files : List RFile
deriving DecidableEq, Repr

/-- One parsed button. -/
structure BButton where
  order : Nat
  title : List Char
  text : List Char
deriving DecidableEq, Repr

/-- One parsed button group. -/
structure BGroup where
  title : List Char
  buttons : List BButton
  footer : List Char
deriving DecidableEq, Repr

/-- Filename match `^(\d+)\.(.+)\.txt$` for button files. -/
def matchBtn (name : List Char) : Option (Nat × List Char) :=
  let ds := name.takeWhile Char.isDigit
  let rest := name.dropWhile Char.isDigit
  if ds = [] then none
  else
    match rest with
    | '.' :: rest2 =>
      if 4 < rest2.length ∧ (".txt").data.isSuffixOf rest2 then
        some (digitsToNat ds, pyStrip (rest2.take (rest2.length - 4)))
      else none
    | _ => none

/-- Python `str.lower()` (ASCII, enough for the `pie.txt` comparison). -/
def pyLower (s : List Char) : List Char :=
  s.map Char.toLower

/-- Sort key of `sorted(buttons, key=lambda b: b["order"])`. -/
def btnLe (a b : BButton) : Prop :=
  a.order ≤ b.order

instance : DecidableRel btnLe := fun a b => Nat.decLe a.order b.order

instance : IsTotal BButton btnLe := ⟨fun a b => Nat.le_total a.order b.order⟩

instance : IsTrans BButton btnLe := ⟨fun _ _ _ => Nat.le_trans⟩

/-- The program function `parse_buttons`: for each group directory, read the
exact-named `Pie.txt` footer, parse the `<N>.<Title>.txt` button files (the
footer file, case-insensitively, is skipped), and keep the group only when it
has at least one button. -/
def parse_buttons (botones : Option (List BGroupSrc)) : List BGroup :=
  match botones with
  | none => []
  | some dirs =>
    dirs.filterMap fun gd =>
      let footer_text :=
        match gd.files.find? (fun f => f.name = ("Pie.txt").data) with
        | some f => joinSpace (cleanLines f.content)
        | none => []
      let buttons := gd.files.filterMap fun f =>
        if pyLower f.name = ("pie.txt").data then none
        else
          match matchBtn f.name with
          | some (order, title) =>
            some { order := order, title := title, text := joinSpace (cleanLines f.content) }
          | none => none
      if buttons ≠ [] then
        some { title := gd.name, buttons := buttons.insertionSort btnLe, footer := footer_text }
      else none

/-- The parsed beneficiary block. -/
structure Benef where
  title : List Char
  lead : List Char
  lines : List (List Char)
  button : List Char
deriving DecidableEq, Repr

/-- Python `lines[-1]` on a non-empty list of lines. -/
def pyLast : List (List Char) → List Char
  | [] => []
  | [x] => x
  | _ :: x :: rest => pyLast (x :: rest)

theorem pyLast_append_singleton :
    ∀ (l : List (List Char)) (b : List Char), pyLast (l ++ [b]) = b := by
  intro l
  induction l with
  | nil => intro b; rfl
  | cons x xs ih =>
    intro b
    cases xs with
    | nil => rfl
    | cons y ys => exact ih b

/-- The program function `parse_beneficiarios`: with more than two non-blank
lines the last line is peeled off as the button line; the first remaining line
is the lead, the rest are body lines. -/
def parse_beneficiarios (content : Option (List Char)) : Option Benef :=
  match content with
  | none => none
  | some txt =>
    match cleanLines txt with
    | [] => none
    | l0 :: rest =>
      if 2 < (l0 :: rest).length then
        some { title := ("BENEFICIARIOS").data
               lead := (l0 :: rest).dropLast.getD 0 []
               lines := (l0 :: rest).dropLast.drop 1
               button := pyLast (l0 :: rest) }
      else
        some { title := ("BENEFICIARIOS").data, lead := l0, lines := rest, button := [] }

/-- The parsed registration block. -/
structure Registro where
  title : List Char
  lines : List (List Char)
  buttons : List (List Char)
deriving DecidableEq, Repr

/-- The `REGISTRO*.txt` glob. -/
def registroGlob (name : List Char) : Bool :=
  ("REGISTRO").data.isPrefixOf name && (".txt").data.isSuffixOf name && 12 ≤ name.length

/-- Lexicographic comparison of names (Python `sorted` over path strings). -/
def lexLeB : List Char → List Char → Bool
  | [], _ => true
  | _ :: _, [] => false
  | a :: as, b :: bs => if a < b then true else if b < a then false else lexLeB as bs

/-- Name order on files. -/
def fileLe (f g : RFile) : Prop :=
  lexLeB f.name g.name = true

instance : DecidableRel fileLe := fun f g => instDecidableEqBool (lexLeB f.name g.name) true

/-- Python `Path.stem`: the file name with its last dot-suffix removed. -/
def stem (name : List Char) : List Char :=
  match takeUntil '.' name.reverse with
  | some (_, []) => name
  | some (_, st) => st.reverse
  | none => name

/-- The program function `parse_registro`: the lexicographically first
`REGISTRO*.txt` file; its first non-blank line is kept in `lines`, the
remaining non-blank lines in `buttons`; the title is the filename stem. -/
def parse_registro (files : List RFile) : Option Registro :=
  match (files.filter fun f => registroGlob f.name).insertionSort fileLe with
  | [] => none
  | f :: _ =>
    match cleanLines f.content with
    | [] => none
    | l0 :: rest => some { title := stem f.name, lines := [l0], buttons := rest }

/-- The program function `parse_contacto`. -/
def parse_contacto (contacto : Option (List Char)) : List (List Char) :=
  match contacto with
  | none => []
  | some txt => cleanLines txt

/-- The program function `parse_redes`: each non-blank `name <url>` line with
non-empty name and url becomes a social-link entry. -/
def parse_redes (content : Option (List Char)) : List (List Char × List Char) :=
  match content with
  | none => []
  | some txt =>
    (cleanLines txt).filterMap fun line =>
      match split_full_link line with
      | (n, some u) => if u ≠ [] ∧ n ≠ [] then some (n, u) else none
      | (_, none) => none

/-- The program function `choose_main_image`, over the existence of the two
candidate asset files. -/
def choose_main_image (png_exists jpg_exists : Bool) : List Char :=
  if png_exists then ("assets/img/im_principal.png").data
  else if jpg_exists then ("assets/img/im_principal.jpg").data
  else ("assets/img/im_principal.png").data

/-! ## Page fragments (`build_html`, lines 253-427 of the source) -/

/-- The body region: one escaped paragraph per body line, or a single empty
paragraph when there is no body content (`... or "<p></p>"`). -/
def body_html_of (body_lines : List (List Char)) : List Char :=
  pyOr (joinNl (body_lines.map fun l => ("<p>").data ++ esc l ++ ("</p>").data))
    (("<p></p>").data)

/-- The beneficiary section fragment (empty when the block is absent). -/
def beneficiarios_html (b : Option Benef) : List Char :=
  match b with
  | none => []
  | some benef =>
    let lead_html := render_inline benef.lead true
    let extra_lines :=
      joinNl (benef.lines.map fun l => ("<p>").data ++ render_inline l true ++ ("</p>").data)
    let button_html :=
      if benef.button ≠ [] then
        match split_full_link benef.button with
        | (bt, some bu) =>
          if bu ≠ [] then
            ("<a class=\x22beneficiarios-button\x22 href=\x22").data ++ esc bu
              ++ ("\x22 target=\x22_blank\x22 rel=\x22noopener\x22>").data
              ++ render_inline bt true ++ ("</a>").data
          else []
        | (_, none) => []
      else []
    ("<section class=\x22beneficiarios\x22 data-animate=\x223\x22>").data
      ++ ("<div class=\x22beneficiarios-text\x22>").data
      ++ ("<p class=\x22beneficiarios-title\x22>").data ++ esc benef.title ++ ("</p>").data
      ++ ("<p class=\x22beneficiarios-lead\x22>").data ++ lead_html ++ ("</p>").data
      ++ extra_lines
      ++ button_html
      ++ ("</div>").data
      ++ ("<div class=\x22beneficiarios-map\x22>").data
      ++ ("<img src=\x22assets/img/mapa.png\x22 alt=\x22Mapa\x22>").data
      ++ ("</div>").data
      ++ ("</section>").data

/-- One registration button line: `split_full_link` extracts an optional
`text <url>` pair, and only a line with a non-empty URL yields an anchor. -/
def registro_button_of (line : List Char) : Option (List Char) :=
  match split_full_link line with
  | (bt, some bu) =>
    if bu ≠ [] then
      some (("<a class=\x22registro-button\x22 href=\x22").data ++ esc bu
        ++ ("\x22 target=\x22_blank\x22 rel=\x22noopener\x22>").data
        ++ render_inline bt true ++ ("</a>").data)
    else none
  | (_, none) => none

/-- The registration section fragment (empty when the block is absent). -/
def registro_html (r : Option Registro) : List Char :=
  match r with
  | none => []
  | some reg =>
    let line_html :=
      joinNl (reg.lines.map fun l => ("<p>").data ++ render_inline l true ++ ("</p>").data)
    let registro_buttons := reg.buttons.filterMap registro_button_of
    let button_html :=
      if reg.buttons ≠ [] then
        if registro_buttons ≠ [] then
          ("<div class=\x22registro-buttons\x22>").data ++ registro_buttons.flatten
            ++ ("</div>").data
        else []
      else []
    ("<section class=\x22registro-band\x22 data-animate=\x223\x22>").data
      ++ ("<div class=\x22registro\x22>").data
      ++ ("<div class=\x22registro-media\x22>").data
      ++ ("<img src=\x22assets/img/plataforma.png\x22 alt=\x22Plataforma\x22>").data
      ++ ("</div>").data
      ++ ("<div class=\x22registro-text\x22>").data
      ++ ("<p class=\x22registro-title\x22>").data ++ esc reg.title ++ ("</p>").data
      ++ line_html
      ++ button_html
      ++ ("</div>").data
      ++ ("</div>").data
      ++ ("</section>").data

/-- The contact section fragment (empty when both contact lines and social
links are absent). -/
def contacto_html (contacto_lines : List (List Char)) (redes : List (List Char × List Char)) :
    List Char :=
  if contacto_lines ≠ [] ∨ redes ≠ [] then
    let contacto_text :=
      joinNl (contacto_lines.map fun l => ("<p>").data ++ render_inline l true ++ ("</p>").data)
    let icons_html :=
      if redes ≠ [] then
        ("<div class=\x22redes-icons\x22>").data
          ++ (redes.map fun item =>
            ("<a href=\x22").data ++ esc item.2
              ++ ("\x22 target=\x22_blank\x22 rel=\x22noopener\x22>").data
              ++ ("<img src=\x22").data ++ esc (("assets/img/iconos/").data ++ item.1)
              ++ ("\x22 alt=\x22").data ++ esc item.1 ++ ("\x22>").data
              ++ ("</a>").data).flatten
          ++ ("</div>").data
      else []
    ("<section class=\x22contacto\x22 data-animate=\x223\x22>").data
      ++ contacto_text ++ icons_html ++ ("</section>").data
  else []

/-- The indicator (button-group) section fragment. -/
def buttons_html (buttons : List BGroup) (sections : List Sect) : List Char :=
  if buttons ≠ [] then
    let groups_html := buttons.map fun group =>
      let cards := group.buttons.map fun button =>
        ("<div class=\x22indicator-card\x22>").data
          ++ ("<img class=\x22indicator-icon\x22 src=\x22").data
          ++ (("assets/img/iconos/indicador").data ++ natStr button.order ++ (".png").data)
          ++ ("\x22 alt=\x22Icono\x22>").data
          ++ ("<p class=\x22indicator-title\x22>").data ++ render_inline button.title true
          ++ ("</p>").data
          ++ ("<p class=\x22indicator-text\x22>").data ++ render_inline button.text true
          ++ ("</p>").data
          ++ ("</div>").data
      let footer_html :=
        if group.footer ≠ [] then
          ("<p class=\x22indicator-footer\x22>").data
            ++ render_footer_with_section_links group.footer sections
            ++ ("</p>").data
        else []
      ("<div class=\x22indicator-group\x22>").data
        ++ ("<h2 class=\x22indicator-heading\x22>").data ++ esc group.title ++ ("</h2>").data
        ++ ("<div class=\x22indicator-row\x22>").data
        ++ joinNl cards
        ++ ("</div>").data
        ++ footer_html
        ++ ("</div>").data
    ("<section class=\x22indicator-section\x22 data-animate=\x223\x22>").data
      ++ joinNl groups_html ++ ("</section>").data
  else []

/-- The per-section identifier `f"sec-{order:02d}"`. -/
def sec_id_of (sec : Sect) : List Char :=
  ("sec-").data ++ pad02 sec.order

/-- The class suffix `" is-active"` given only to the section at index 0. -/
def active_class (idx : Nat) : List Char :=
  if idx = 0 then (" is-active").data else []

/-- The `aria-expanded` attribute value: `"true"` exactly at index 0. -/
def aria_expanded_attr (idx : Nat) : List Char :=
  if idx = 0 then ("true").data else ("false").data

/-- The `aria-hidden` attribute value `str(idx != 0).lower()`. -/
def aria_hidden_attr (idx : Nat) : List Char :=
  if idx ≠ 0 then ("true").data else ("false").data

/-- One rendered accordion entry (button plus panel) at position `idx`. -/
def sec_item_html (idx : Nat) (sec : Sect) : List Char :=
  let items := sec.items.map fun item =>
    let url := pyStrip item.url
    if url ≠ [] then
      ("<li><a href=\x22").data ++ esc url ++ ("\x22 target=\x22_blank\x22 rel=\x22noopener\x22>").data
        ++ esc item.text ++ ("</a></li>").data
    else ("<li><span>").data ++ esc item.text ++ ("</span></li>").data
  let items_html := pyOr (joinNl items) (("<li><span></span></li>").data)
  ("<div class=\x22sec-item\x22>").data
    ++ ("<button id=\x22").data ++ (sec_id_of sec ++ ("-btn").data)
    ++ ("\x22 class=\x22sec-btn").data ++ active_class idx
    ++ ("\x22 aria-expanded=\x22").data ++ aria_expanded_attr idx
    ++ ("\x22 aria-controls=\x22").data ++ sec_id_of sec
    ++ ("\x22 data-target=\x22").data ++ sec_id_of sec ++ ("\x22>").data
    ++ ("<span class=\x22sec-title\x22>").data ++ esc sec.title ++ ("</span>").data
    ++ ("<span class=\x22sec-arrow\x22 aria-hidden=\x22true\x22>></span>").data
    ++ ("</button>").data
    ++ ("<div id=\x22").data ++ sec_id_of sec
    ++ ("\x22 class=\x22sec-panel").data ++ active_class idx
    ++ ("\x22 role=\x22region\x22 aria-labelledby=\x22").data ++ (sec_id_of sec ++ ("-btn").data)
    ++ ("\x22 aria-hidden=\x22").data ++ aria_hidden_attr idx
    ++ ("\x22>").data
    ++ ("<ul>\n").data ++ items_html ++ ("\n</ul></div>").data
    ++ ("</div>").data

/-- The rendered accordion entries, one per section, indexed by `enumerate`. -/
def accordion_items (sections : List Sect) : List (List Char) :=
  sections.enum.map fun p => sec_item_html p.1 p.2

/-- The accordion block `"\n".join(accordion_items)`. -/
def accordion_block (sections : List Sect) : List Char :=
  joinNl (accordion_items sections)

/-! ## The HTML template

The body of `build_html` returns one f-string.  Its static text is split
at the eleven interpolation holes into the chunks below (extracted verbatim
from the source, with Python's `{{`/`}}` and `\\"` escapes resolved). -/

def tmpl0 : List Char := ("<!doctype html>\n<html lang=\x22es\x22>\n<head>\n  <meta charset=\x22utf-8\x22>\n  <meta name=\x22viewport\x22 content=\x22width=device-width, initial-scale=1\x22>\n  <meta http-equiv=\x22Cache-Control\x22 content=\x22no-cache, no-store, must-revalidate\x22>\n  <meta http-equiv=\x22Pragma\x22 content=\x22no-cache\x22>\n  <meta http-equiv=\x22Expires\x22 content=\x220\x22>\n  <title>").data

def tmpl1 : List Char := ("</title>\n  <style>\n    @import url(\x27https://fonts.googleapis.com/css2?family=Marcellus&family=Work+Sans:wght@300;500;700&display=swap\x27);\n\n    * \x7b box-sizing: border-box; \x7d\n\n    body \x7b\n      margin: 0;\n      font-family: \x22Work Sans\x22, \x22Segoe UI\x22, sans-serif;\n      min-height: 100vh;\n    \x7d\n\n    .page \x7b\n      max-width: 1100px;\n      margin: 0 auto;\n      padding: 48px 24px 0;\n    \x7d\n\n    .page-header \x7b\n      display: flex;\n      align-items: flex-start;\n      justify-content: space-between;\n      gap: 24px;\n    \x7d\n\n    .logo \x7b\n      width: 120px;\n      height: auto;\n      object-fit: contain;\n    \x7d\n\n    .eyebrow \x7b\n      text-transform: uppercase;\n      letter-spacing: 0.32em;\n      font-size: 12px;\n      margin: 0 0 12px;\n    \x7d\n\n    h1 \x7b\n      font-family: \x22Marcellus\x22, \x22Georgia\x22, serif;\n      font-weight: 400;\n      font-size: clamp(32px, 4vw, 52px);\n      margin: 0 0 12px;\n    \x7d\n\n    .subtitle \x7b\n      margin: 0;\n      font-size: clamp(16px, 2.3vw, 22px);\n      max-width: 560px;\n      line-height: 1.5;\n    \x7d\n\n    .hero-band \x7b\n      width: 100vw;\n      margin-left: calc(50% - 50vw);\n      margin-right: calc(50% - 50vw);\n      margin-top: 36px;\n      margin-bottom: 28px;\n      background: url(\x22assets/img/Fondos/principal.png\x22) center/cover no-repeat;\n      padding: 24px 0;\n    \x7d\n\n    .hero \x7b\n      max-width: 1100px;\n      margin: 0 auto;\n      padding: 0 24px;\n      overflow: hidden;\n      position: relative;\n    \x7d\n\n    .hero img \x7b\n      width: 100%;\n      height: 100%;\n      display: block;\n      object-fit: cover;\n    \x7d\n\n    .body-text \x7b\n      padding: 24px 28px;\n      line-height: 1.6;\n      text-align: justify;\n    \x7d\n\n    .body-text p \x7b\n      margin: 0 0 22px;\n      font-size: 18px;\n      line-height: 1.7;\n    \x7d\n\n    .section-divider \x7b\n      height: 10px;\n      background: #777777;\n      width: 100%;\n      margin: 16px 0 24px;\n    \x7d\n\n    .beneficiarios \x7b\n      display: flex;\n      gap: 28px;\n      align-items: flex-start;\n      margin-top: 32px;\n    \x7d\n\n    .beneficiarios-text \x7b\n      flex: 1;\n      min-width: 0;\n    \x7d\n\n    .beneficiarios-title \x7b\n      margin: 0 0 10px;\n      text-transform: uppercase;\n      letter-spacing: 0.18em;\n      font-size: 22px;\n      font-weight: 600;\n    \x7d\n\n    .beneficiarios-lead \x7b\n      margin: 0 0 12px;\n      font-size: 32px;\n      font-weight: 700;\n    \x7d\n\n    .beneficiarios-text p \x7b\n      margin: 0 0 16px;\n      font-size: 18px;\n      line-height: 1.7;\n    \x7d\n\n    .beneficiarios-text .beneficiarios-lead \x7b\n      font-size: 40px;\n    \x7d\n\n    .beneficiarios-map \x7b\n      flex: 1;\n      min-width: 220px;\n      max-width: 360px;\n    \x7d\n\n    .beneficiarios-map img \x7b\n      width: 75%;\n      height: auto;\n      display: block;\n      margin-right: auto;\n    \x7d\n\n    .beneficiarios-button \x7b\n      display: inline-block;\n      margin-top: 10px;\n      padding: 10px 16px;\n      border: 1px solid #b8c1cc;\n      border-radius: 6px;\n      font-size: 18px;\n      font-weight: 600;\n      background: #777777;\n      color: #ffffff;\n    \x7d\n\n    .registro-band \x7b\n      width: 100vw;\n      margin-left: calc(50% - 50vw);\n      margin-right: calc(50% - 50vw);\n      margin-top: 32px;\n      background: url(\x22assets/img/Fondos/plataforma.png\x22) center/cover no-repeat;\n      padding: 24px 0;\n    \x7d\n\n    .registro \x7b\n      display: flex;\n      gap: 28px;\n      align-items: stretch;\n      max-width: 1100px;\n      margin: 0 auto;\n      padding: 0 24px;\n    \x7d\n\n    .registro-media \x7b\n      flex: 1;\n      min-width: 330px;\n      max-width: 540px;\n      display: flex;\n      justify-content: center;\n      align-items: stretch;\n    \x7d\n\n    .registro-media img \x7b\n      width: 100%;\n      height: 100%;\n      display: block;\n      object-fit: contain;\n      margin: auto;\n    \x7d\n\n    .registro-text \x7b\n      flex: 1.2;\n      min-width: 0;\n      display: flex;\n      flex-direction: column;\n      justify-content: center;\n    \x7d\n\n    .registro-title \x7b\n      margin: 0 0 10px;\n      text-transform: uppercase;\n      letter-spacing: 0.18em;\n      font-size: 22px;\n      font-weight: 600;\n      color: #ffffff;\n    \x7d\n\n    .registro-text p \x7b\n      margin: 0 0 16px;\n      font-size: 18px;\n      line-height: 1.7;\n      color: #ffffff;\n    \x7d\n\n    .registro-button \x7b\n      display: inline-block;\n      margin-top: 10px;\n      padding: 10px 16px;\n      border: 1px solid #b8c1cc;\n      border-radius: 6px;\n      font-size: 18px;\n      font-weight: 600;\n      text-align: center;\n      background: #ffffff;\n      color: #ba3034;\n    \x7d\n\n    .registro-buttons \x7b\n      display: flex;\n      flex-wrap: wrap;\n      gap: 10px;\n      margin-top: 10px;\n    \x7d\n\n    .contacto \x7b\n      margin-top: 54px;\n      text-align: center;\n      background: #575556;\n      color: #ffffff;\n      padding: 24px 16px;\n      width: 100vw;\n      margin-left: calc(50% - 50vw);\n      margin-right: calc(50% - 50vw);\n    \x7d\n\n    .contacto p \x7b\n      margin: 0 0 10px;\n      font-size: 18px;\n      line-height: 1.6;\n      color: #ffffff;\n    \x7d\n\n    .redes-icons \x7b\n      display: flex;\n      justify-content: center;\n      gap: 14px;\n      margin-top: 12px;\n      flex-wrap: wrap;\n    \x7d\n\n    .redes-icons img \x7b\n      width: 36px;\n      height: 36px;\n      display: block;\n      object-fit: contain;\n    \x7d\n\n    .indicator-section \x7b\n      margin-top: 32px;\n    \x7d\n\n    .indicator-group \x7b\n      margin-bottom: 24px;\n    \x7d\n\n    .indicator-heading \x7b\n      margin: 0 0 14px;\n      font-size: 22px;\n      font-weight: 700;\n      text-transform: uppercase;\n      letter-spacing: 0.14em;\n    \x7d\n\n    .indicator-row \x7b\n      display: grid;\n      grid-template-columns: repeat(auto-fit, minmax(220px, 1fr));\n      gap: 18px;\n    \x7d\n\n    .indicator-card \x7b\n      aspect-ratio: 1 / 1;\n      border: 1px solid #d7dbe2;\n      border-radius: 16px;\n      padding: 18px;\n      display: flex;\n      flex-direction: column;\n      align-items: center;\n      justify-content: center;\n      text-align: center;\n      gap: 10px;\n    \x7d\n\n    .indicator-icon \x7b\n      width: 64px;\n      height: 64px;\n      object-fit: contain;\n    \x7d\n\n    .indicator-title \x7b\n      margin: 0;\n      font-size: 20px;\n      font-weight: 700;\n    \x7d\n\n    .indicator-text \x7b\n      margin: 0;\n      font-size: 16px;\n      line-height: 1.5;\n    \x7d\n\n    .indicator-footer \x7b\n      margin: 12px 0 0;\n      font-size: 16px;\n      line-height: 1.6;\n    \x7d\n\n    .indicator-link \x7b\n      font-weight: 600;\n    \x7d\n\n    .sections \x7b\n      margin-top: 36px;\n    \x7d\n\n    .accordion \x7b\n      display: flex;\n      flex-direction: column;\n      gap: 14px;\n      width: min(100%, 920px);\n      margin: 0 auto;\n    \x7d\n\n    .sec-btn \x7b\n      border: none;\n      padding: 14px 22px;\n      border-radius: 16px;\n      font-size: 20px;\n      font-weight: 600;\n      cursor: pointer;\n      width: 100%;\n      display: flex;\n      align-items: center;\n      justify-content: space-between;\n      gap: 16px;\n      text-align: left;\n      transition: transform 0.2s ease, box-shadow 0.2s ease, background 0.2s ease;\n    \x7d\n\n    .sec-btn:hover \x7b\n      transform: translateY(-2px);\n      box-shadow: 0 10px 24px rgba(15, 58, 74, 0.15);\n    \x7d\n\n    .sec-arrow \x7b\n      display: inline-flex;\n      align-items: center;\n      justify-content: center;\n      width: 28px;\n      height: 28px;\n      border-radius: 50%;\n      font-size: 18px;\n      transition: transform 0.2s ease;\n    \x7d\n\n    .sec-btn.is-active .sec-arrow \x7b\n      transform: rotate(90deg);\n    \x7d\n\n    .sec-panel \x7b\n      display: none;\n      padding: 24px;\n      animation: fadeUp 0.4s ease;\n    \x7d\n\n    .sec-panel.is-active \x7b\n      display: block;\n    \x7d\n\n    .sec-panel ul \x7b\n      list-style: none;\n      padding: 0;\n      margin: 0;\n      display: grid;\n      gap: 10px;\n    \x7d\n\n    .sec-panel li \x7b\n      padding: 3px 8px;\n      font-size: 18px;\n      line-height: 1.7;\n    \x7d\n\n    .sec-panel a \x7b\n      color: #1a5fb4;\n      text-decoration: none;\n      font-weight: 600;\n    \x7d\n\n    a \x7b\n      text-decoration: none;\n    \x7d\n\n\n    [data-animate] \x7b\n      opacity: 0;\n      transform: translateY(14px);\n      transition: opacity 0.6s ease, transform 0.6s ease;\n    \x7d\n\n    body.is-ready [data-animate] \x7b\n      opacity: 1;\n      transform: translateY(0);\n    \x7d\n\n    body.is-ready [data-animate=\x222\x22] \x7b\n      transition-delay: 0.08s;\n    \x7d\n\n    body.is-ready [data-animate=\x223\x22] \x7b\n      transition-delay: 0.16s;\n    \x7d\n\n    @keyframes fadeUp \x7b\n      from \x7b opacity: 0; transform: translateY(10px); \x7d\n      to \x7b opacity: 1; transform: translateY(0); \x7d\n    \x7d\n\n    @media (max-width: 800px) \x7b\n      .page-header \x7b\n        flex-direction: column;\n        align-items: flex-start;\n      \x7d\n\n      .logo \x7b\n        align-self: flex-end;\n      \x7d\n\n      .beneficiarios \x7b\n        flex-direction: column;\n      \x7d\n\n      .registro \x7b\n        flex-direction: column;\n      \x7d\n    \x7d\n  </style>\n</head>\n<body>\n  <div class=\x22page\x22>\n    <header class=\x22page-header\x22 data-animate=\x221\x22>\n      <div>\n        <p class=\x22eyebrow\x22>").data

def tmpl2 : List Char := ("</p>\n        <h1>").data

def tmpl3 : List Char := ("</h1>\n        <p class=\x22subtitle\x22>").data

def tmpl4 : List Char := ("</p>\n      </div>\n      <a class=\x22logo-link\x22 href=\x22https://www.onsv.gob.pe/\x22 target=\x22_blank\x22 rel=\x22noopener\x22>\n        <img class=\x22logo\x22 src=\x22assets/img/logos/logo-onsv.png\x22 alt=\x22Logo ONSV\x22>\n      </a>\n    </header>\n\n    <section class=\x22hero-band\x22 data-animate=\x222\x22>\n      <div class=\x22hero\x22>\n        <img src=\x22").data

def tmpl5 : List Char := ("\x22 alt=\x22Imagen principal\x22>\n      </div>\n    </section>\n\n    <section class=\x22body-text\x22 data-animate=\x223\x22>\n      ").data

def tmpl6 : List Char := ("\n    </section>\n\n    <div class=\x22section-divider\x22 aria-hidden=\x22true\x22></div>\n\n    ").data

def tmpl7 : List Char := ("\n\n    ").data

def tmpl8 : List Char := ("\n\n    ").data

def tmpl9 : List Char := ("\n\n    <section class=\x22sections\x22 data-animate=\x223\x22>\n      <div class=\x22accordion\x22>\n        ").data

def tmpl10 : List Char := ("\n      </div>\n    </section>\n\n    ").data

def tmpl11 : List Char := ("\n  </div>\n\n  <script>\n    const buttons = Array.from(document.querySelectorAll(\x27.sec-btn\x27));\n    const panels = Array.from(document.querySelectorAll(\x27.sec-panel\x27));\n\n    function closeAll() \x7b\n      panels.forEach(panel => \x7b\n        panel.classList.remove(\x27is-active\x27);\n        panel.setAttribute(\x27aria-hidden\x27, \x27true\x27);\n      \x7d);\n      buttons.forEach(button => \x7b\n        button.classList.remove(\x27is-active\x27);\n        button.setAttribute(\x27aria-expanded\x27, \x27false\x27);\n      \x7d);\n    \x7d\n\n    function openById(targetId) \x7b\n      const panel = document.getElementById(targetId);\n      if (!panel) return;\n      closeAll();\n      panel.classList.add(\x27is-active\x27);\n      panel.setAttribute(\x27aria-hidden\x27, \x27false\x27);\n      const button = buttons.find(btn => btn.dataset.target === targetId);\n      if (button) \x7b\n        button.classList.add(\x27is-active\x27);\n        button.setAttribute(\x27aria-expanded\x27, \x27true\x27);\n      \x7d\n      panel.scrollIntoView(\x7b behavior: \x27smooth\x27, block: \x27start\x27 \x7d);\n    \x7d\n\n    buttons.forEach(button => \x7b\n      button.addEventListener(\x27click\x27, () => \x7b\n        const targetId = button.dataset.target;\n        const panel = document.getElementById(targetId);\n        const willOpen = !panel.classList.contains(\x27is-active\x27);\n        closeAll();\n        if (willOpen) \x7b\n          panel.classList.add(\x27is-active\x27);\n          panel.setAttribute(\x27aria-hidden\x27, \x27false\x27);\n          button.classList.add(\x27is-active\x27);\n          button.setAttribute(\x27aria-expanded\x27, \x27true\x27);\n        \x7d\n      \x7d);\n    \x7d);\n\n    document.querySelectorAll(\x27[data-open]\x27).forEach(link => \x7b\n      link.addEventListener(\x27click\x27, event => \x7b\n        const targetId = link.getAttribute(\x27data-open\x27);\n        if (targetId) \x7b\n          event.preventDefault();\n          openById(targetId);\n        \x7d\n      \x7d);\n    \x7d);\n\n    window.addEventListener(\x27load\x27, () => \x7b\n      document.body.classList.add(\x27is-ready\x27);\n    \x7d);\n  </script>\n</body>\n</html>\n").data

/-- The page content model: each named content file as optional decoded text,
the globbed collections as file lists, plus the existence of the two hero
image assets. -/
structure Content where
  titulo : Option (List Char)
  cuerpo : Option (List Char)
  despegables : Option (List RFile)
  botones : Option (List BGroupSrc)
  beneficiarios : Option (List Char)
  files : List RFile
  contacto : Option (List Char)
  redes : Option (List Char)
  png_exists : Bool
  jpg_exists : Bool
deriving DecidableEq, Repr

/-- The program function `build_html`: parse every content source and fill the
eleven interpolation holes of the template. -/
def build_html (c : Content) : List Char :=
  let tns := parse_title c.titulo
  let header := tns.1
  let title := tns.2.1
  let subtitle := tns.2.2
  let body_lines := parse_body c.cuerpo
  let sections := parse_sections c.despegables
  let buttons := parse_buttons c.botones
  let beneficiarios := parse_beneficiarios c.beneficiarios
  let registro := parse_registro c.files
  let contacto_lines := parse_contacto c.contacto
  let redes := parse_redes c.redes
  let hero_src := choose_main_image c.png_exists c.jpg_exists
  tmpl0 ++ esc (pyOr title (pyOr header ("Pagina").data))
    ++ tmpl1 ++ esc header
    ++ tmpl2 ++ esc title
    ++ tmpl3 ++ esc subtitle
    ++ tmpl4 ++ hero_src
    ++ tmpl5 ++ body_html_of body_lines
    ++ tmpl6 ++ beneficiarios_html beneficiarios
    ++ tmpl7 ++ buttons_html buttons sections
    ++ tmpl8 ++ registro_html registro
    ++ tmpl9 ++ accordion_block sections
    ++ tmpl10 ++ contacto_html contacto_lines redes
    ++ tmpl11

/-! ## Lemmas about `render_inline` -/

theorem render_inline_nil (al : Bool) : render_inline [] al = [] := by
  rw [render_inline]

theorem render_inline_step (c : Char) (rest : List Char) (al : Bool) :
    render_inline (c :: rest) al =
      match scanStep al c rest with
      | .link t u r =>
        ("<a href=\x22").data ++ esc (pyStrip u)
          ++ ("\x22 target=\x22_blank\x22 rel=\x22noopener\x22>").data
          ++ render_inline t false ++ ("</a>").data ++ render_inline r al
      | .bold inner after =>
        ("<strong>").data ++ render_inline inner al ++ ("</strong>").data
          ++ render_inline after al
      | .lit c2 rest2 => escChar c2 ++ render_inline rest2 al := by
  rw [render_inline]
  cases hs : scanStep al c rest <;> rfl

theorem render_inline_link_eq {al : Bool} {c : Char} {rest t u r : List Char}
    (hs : scanStep al c rest = .link t u r) :
    render_inline (c :: rest) al =
      ("<a href=\x22").data ++ esc (pyStrip u)
        ++ ("\x22 target=\x22_blank\x22 rel=\x22noopener\x22>").data
        ++ render_inline t false ++ ("</a>").data ++ render_inline r al := by
  rw [render_inline_step, hs]

theorem render_inline_bold_eq {al : Bool} {c : Char} {rest inner after : List Char}
    (hs : scanStep al c rest = .bold inner after) :
    render_inline (c :: rest) al =
      ("<strong>").data ++ render_inline inner al ++ ("</strong>").data
        ++ render_inline after al := by
  rw [render_inline_step, hs]

theorem render_inline_lit_eq {al : Bool} {c : Char} {rest : List Char} {c2 : Char}
    {rest2 : List Char} (hs : scanStep al c rest = .lit c2 rest2) :
    render_inline (c :: rest) al = escChar c2 ++ render_inline rest2 al := by
  rw [render_inline_step, hs]

/-- With `allow_links = false` the link branch can never fire. -/
theorem scanStep_false_not_link {c : Char} {rest t u r : List Char}
    (h : scanStep false c rest = .link t u r) : False := by
  unfold scanStep at h
  split at h
  · next heq => exact absurd heq (by simp)
  · exact starStep_not_link h

/-- Any failed match of the link regex makes `scanStep` agree with
`starStep`. -/
theorem scanStep_eq_star {al : Bool} {c : Char} {rest : List Char}
    (hml : matchLink (c :: rest) = none) : scanStep al c rest = starStep c rest := by
  unfold scanStep
  cases al <;> simp [hml]

/-- When neither a link nor any `*` pairing is available, the scanner escapes
exactly one character. -/
theorem scanStep_lit_of {al : Bool} {c : Char} {rest : List Char}
    (hml : matchLink (c :: rest) = none) (hstar : ¬(c = '*' ∧ '*' ∈ rest)) :
    scanStep al c rest = .lit c rest := by
  rw [scanStep_eq_star hml]
  unfold starStep
  by_cases hc : c = '*'
  · have hmem : '*' ∉ rest := fun hm => hstar ⟨hc, hm⟩
    rw [if_pos hc]
    cases rest with
    | nil => simp [takeUntil]
    | cons c2 rest2 =>
      have hc2 : c2 ≠ '*' := fun he => hmem (by rw [he]; exact List.mem_cons_self '*' rest2)
      split
      · next heq =>
        exfalso
        have hh := congrArg List.head? heq
        simp only [List.head?_cons, Option.some.injEq] at hh
        exact hc2 hh
      · rw [takeUntil_none '*' (c2 :: rest2) hmem]
  · rw [if_neg hc]

/-! ## Marker-free strings render as pure escapes -/

/-- A string on which the scanner never fires a marker branch: no position
matches the link regex, and no `*` has a later `*` to pair with. -/
def marker_free : List Char → Bool
  | [] => true
  | c :: rest =>
    if (matchLink (c :: rest)).isSome then false
    else if c = '*' ∧ '*' ∈ rest then false
    else marker_free rest

theorem marker_free_cons {c : Char} {rest : List Char} (h : marker_free (c :: rest) = true) :
    matchLink (c :: rest) = none ∧ ¬(c = '*' ∧ '*' ∈ rest) ∧ marker_free rest = true := by
  unfold marker_free at h
  split at h
  · simp at h
  · next hml =>
    split at h
    · simp at h
    · next hstar =>
      refine ⟨?_, hstar, h⟩
      cases hmm : matchLink (c :: rest) with
      | none => rfl
      | some v => rw [hmm] at hml; simp at hml

theorem esc_nil : esc [] = [] := rfl

theorem esc_cons (c : Char) (s : List Char) : esc (c :: s) = escChar c ++ esc s := rfl

theorem esc_append (s t : List Char) : esc (s ++ t) = esc s ++ esc t := by
  simp [esc]

/-- On a marker-free string the renderer is exactly the HTML escape. -/
theorem render_inline_marker_free :
    ∀ (s : List Char) (al : Bool), marker_free s = true → render_inline s al = esc s := by
  intro s
  induction s with
  | nil => intro al _; rw [render_inline_nil, esc_nil]
  | cons c rest ih =>
    intro al h
    obtain ⟨hml, hstar, hrest⟩ := marker_free_cons h
    rw [render_inline_lit_eq (scanStep_lit_of hml hstar), ih al hrest, esc_cons]

/-- A string without `*` and `<` is marker-free. -/
theorem marker_free_of_plain :
    ∀ (s : List Char), (∀ x ∈ s, x ≠ '*' ∧ x ≠ '<') → marker_free s = true := by
  intro s
  induction s with
  | nil => intro _; rfl
  | cons c rest ih =>
    intro h
    have hc := h c (List.mem_cons_self c rest)
    unfold marker_free
    rw [matchLink_none_of_head hc.2]
    simp only [Option.isSome_none, Bool.false_eq_true, if_false]
    rw [if_neg (fun hp : c = '*' ∧ '*' ∈ rest => hc.1 hp.1)]
    exact ih fun x hx => h x (List.mem_cons_of_mem c hx)

/-! ## Character classes of escaped output -/

/-- The escape of any character contains no raw `<`, `>` or `"`. -/
theorem escChar_no_raw {c : Char} :
    ∀ d ∈ escChar c, d ≠ '<' ∧ d ≠ '>' ∧ d ≠ '\x22' := by
  intro d hd
  unfold escChar at hd
  by_cases h1 : c = '&'
  · rw [if_pos h1] at hd
    have he : ("&amp;").data = ['&', 'a', 'm', 'p', ';'] := rfl
    rw [he] at hd
    fin_cases hd <;> decide
  · rw [if_neg h1] at hd
    by_cases h2 : c = '<'
    · rw [if_pos h2] at hd
      have he : ("&lt;").data = ['&', 'l', 't', ';'] := rfl
      rw [he] at hd
      fin_cases hd <;> decide
    · rw [if_neg h2] at hd
      by_cases h3 : c = '>'
      · rw [if_pos h3] at hd
        have he : ("&gt;").data = ['&', 'g', 't', ';'] := rfl
        rw [he] at hd
        fin_cases hd <;> decide
      · rw [if_neg h3] at hd
        by_cases h4 : c = '\x22'
        · rw [if_pos h4] at hd
          have he : ("&quot;").data = ['&', 'q', 'u', 'o', 't', ';'] := rfl
          rw [he] at hd
          fin_cases hd <;> decide
        · rw [if_neg h4] at hd
          by_cases h5 : c = '\x27'
          · rw [if_pos h5] at hd
            have he : ("&#x27;").data = ['&', '#', 'x', '2', '7', ';'] := rfl
            rw [he] at hd
            fin_cases hd <;> decide
          · rw [if_neg h5] at hd
            simp only [List.mem_singleton] at hd
            subst hd
            exact ⟨h2, h3, h4⟩

theorem esc_no_raw {s : List Char} : ∀ d ∈ esc s, d ≠ '<' ∧ d ≠ '>' ∧ d ≠ '\x22' := by
  intro d hd
  rw [esc, List.mem_flatMap] at hd
  obtain ⟨c, _, hdc⟩ := hd
  exact escChar_no_raw d hdc

/-- Every ampersand in the string is the head of one of the five escape
entities produced by `html.escape`. -/
def ampOk : List Char → Bool
  | [] => true
  | c :: rest =>
    if c = '&' then
      (("amp;").data.isPrefixOf rest || ("lt;").data.isPrefixOf rest
        || ("gt;").data.isPrefixOf rest || ("quot;").data.isPrefixOf rest
        || ("#x27;").data.isPrefixOf rest) && ampOk rest
    else ampOk rest

theorem ampOk_escChar_append (c : Char) (t : List Char) :
    ampOk (escChar c ++ t) = ampOk t := by
  unfold escChar
  by_cases h1 : c = '&'
  · rw [if_pos h1]
    show ampOk ('&' :: 'a' :: 'm' :: 'p' :: ';' :: t) = ampOk t
    simp [ampOk, List.isPrefixOf]
  · rw [if_neg h1]
    by_cases h2 : c = '<'
    · rw [if_pos h2]
      show ampOk ('&' :: 'l' :: 't' :: ';' :: t) = ampOk t
      simp [ampOk, List.isPrefixOf]
    · rw [if_neg h2]
      by_cases h3 : c = '>'
      · rw [if_pos h3]
        show ampOk ('&' :: 'g' :: 't' :: ';' :: t) = ampOk t
        simp [ampOk, List.isPrefixOf]
      · rw [if_neg h3]
        by_cases h4 : c = '\x22'
        · rw [if_pos h4]
          show ampOk ('&' :: 'q' :: 'u' :: 'o' :: 't' :: ';' :: t) = ampOk t
          simp [ampOk, List.isPrefixOf]
        · rw [if_neg h4]
          by_cases h5 : c = '\x27'
          · rw [if_pos h5]
            show ampOk ('&' :: '#' :: 'x' :: '2' :: '7' :: ';' :: t) = ampOk t
            simp [ampOk, List.isPrefixOf]
          · rw [if_neg h5]
            show ampOk (c :: t) = ampOk t
            rw [ampOk, if_neg h1]

/-- The escape of any string has all its ampersands entity-headed. -/
theorem ampOk_esc (s : List Char) : ampOk (esc s) = true := by
  induction s with
  | nil => rfl
  | cons c rest ih => rw [esc_cons, ampOk_escChar_append, ih]

/-! ## No anchor tags under `allow_links := false` -/

/-- Head test used by `ltFollowOk`: the next character opens `strong` or a
closing tag. -/
def ltHeadOk : List Char → Bool
  | d :: _ => d = 's' || d = '/'
  | [] => false

/-- Every raw `<` in the string is immediately followed by `s` or `/` (the
tags `<strong>` and `</strong>`) — in particular no `<a` anywhere. -/
def ltFollowOk : List Char → Bool
  | [] => true
  | c :: rest =>
    if c = '<' then ltHeadOk rest && ltFollowOk rest else ltFollowOk rest

theorem ltFollowOk_append {x y : List Char} (hx : ltFollowOk x = true)
    (hy : ltFollowOk y = true) : ltFollowOk (x ++ y) = true := by
  induction x with
  | nil => simpa
  | cons c xs ih =>
    rw [List.cons_append, ltFollowOk]
    rw [ltFollowOk] at hx
    by_cases hc : c = '<'
    · rw [if_pos hc] at hx ⊢
      rw [Bool.and_eq_true] at hx ⊢
      cases xs with
      | nil => simp [ltHeadOk] at hx
      | cons d xs2 => exact ⟨hx.1, ih hx.2⟩
    · rw [if_neg hc] at hx ⊢
      exact ih hx

theorem ltFollowOk_of_no_lt {xs : List Char} (h : ∀ x ∈ xs, x ≠ '<') :
    ltFollowOk xs = true := by
  induction xs with
  | nil => rfl
  | cons c rest ih =>
    rw [ltFollowOk, if_neg (h c (List.mem_cons_self c rest))]
    exact ih fun x hx => h x (List.mem_cons_of_mem c hx)

theorem ltFollowOk_escChar (c : Char) : ltFollowOk (escChar c) = true :=
  ltFollowOk_of_no_lt fun d hd => (escChar_no_raw d hd).1

theorem ltFollowOk_esc (s : List Char) : ltFollowOk (esc s) = true :=
  ltFollowOk_of_no_lt fun d hd => (esc_no_raw d hd).1

/-- The rendered output under `allow_links := false` satisfies the `<`
discipline: only `strong` tags are opened. -/
theorem ltFollowOk_render (text : List Char) :
    ltFollowOk (render_inline text false) = true := by
  match text with
  | [] => rw [render_inline_nil]; rfl
  | c :: rest =>
    cases hs : scanStep false c rest with
    | link t u r => exact absurd hs fun h => scanStep_false_not_link h
    | bold inner after =>
      rw [render_inline_bold_eq hs]
      have hinner := ltFollowOk_render inner
      have hafter := ltFollowOk_render after
      have h1 : ltFollowOk (("<strong>").data) = true := by decide
      have h2 : ltFollowOk (("</strong>").data) = true := by decide
      exact ltFollowOk_append (ltFollowOk_append (ltFollowOk_append h1 hinner) h2) hafter
    | lit c2 rest2 =>
      rw [render_inline_lit_eq hs]
      exact ltFollowOk_append (ltFollowOk_escChar c2) (ltFollowOk_render rest2)
termination_by text.length
decreasing_by
  all_goals
    first
      | (have hb := scanStep_bold hs
         simp at hb ⊢
         omega)
      | (have hl := (scanStep_lit hs).2
         subst hl
         simp)

/-! ## A fuel-indexed evaluator for `render_inline`

`render_inline` is defined by well-founded recursion; for computing concrete
instances inside proofs we use a structurally recursive evaluator with a fuel
bound and prove it agrees whenever the fuel covers the input length. -/

def renderInlineF (fuel : Nat) (text : List Char) (allow_links : Bool) : List Char :=
  match fuel with
  | 0 => []
  | fuel + 1 =>
    match text with
    | [] => []
    | c :: rest =>
      match scanStep allow_links c rest with
      | .link t u r =>
        ("<a href=\x22").data ++ esc (pyStrip u)
          ++ ("\x22 target=\x22_blank\x22 rel=\x22noopener\x22>").data
          ++ renderInlineF fuel t false ++ ("</a>").data ++ renderInlineF fuel r allow_links
      | .bold inner after =>
        ("<strong>").data ++ renderInlineF fuel inner allow_links ++ ("</strong>").data
          ++ renderInlineF fuel after allow_links
      | .lit c2 rest2 => escChar c2 ++ renderInlineF fuel rest2 allow_links

theorem renderInlineF_eq :
    ∀ (fuel : Nat) (text : List Char) (al : Bool), text.length ≤ fuel →
      renderInlineF fuel text al = render_inline text al := by
  intro fuel
  induction fuel with
  | zero =>
    intro text al h
    have : text = [] := List.eq_nil_of_length_eq_zero (Nat.le_zero.mp h)
    subst this
    rw [render_inline_nil]
    rfl
  | succ fuel ih =>
    intro text al h
    match text with
    | [] => rw [render_inline_nil]; rfl
    | c :: rest =>
      cases hs : scanStep al c rest with
      | link t u r =>
        have hlen := matchLink_length (scanStep_link hs)
        simp only [renderInlineF, hs]
        rw [render_inline_link_eq hs]
        rw [ih t false (by simp at hlen h ⊢; omega), ih r al (by simp at hlen h ⊢; omega)]
      | bold inner after =>
        have hlen := scanStep_bold hs
        simp only [renderInlineF, hs]
        rw [render_inline_bold_eq hs]
        rw [ih inner al (by simp at hlen h ⊢; omega), ih after al (by simp at hlen h ⊢; omega)]
      | lit c2 rest2 =>
        have hlen := (scanStep_lit hs).2
        subst hlen
        simp only [renderInlineF, hs]
        rw [render_inline_lit_eq hs]
        rw [ih rest2 al (by simp at h ⊢; omega)]

/-- Evaluation form of `render_inline` for concrete inputs. -/
theorem render_inline_eval (text : List Char) (al : Bool) :
    render_inline text al = renderInlineF text.length text al :=
  (renderInlineF_eq text.length text al (Nat.le_refl _)).symm

/-! ## Further helper lemmas for the claims -/

theorem splitStarStar_none_of_no_star :
    ∀ (s : List Char), '*' ∉ s → splitStarStar s = none := by
  intro s
  induction s with
  | nil => intro _; rfl
  | cons c tail ih =>
    intro h
    cases tail with
    | nil => rfl
    | cons d r =>
      rw [splitStarStar]
      have hc : ¬(c = '*' ∧ d = '*') := fun hp => h (by rw [hp.1]; exact List.mem_cons_self _ _)
      rw [if_neg hc, ih (fun hm => h (List.mem_cons_of_mem c hm))]
      rfl

theorem matchLink_no_quote {s : List Char} (h : ∀ x ∈ s, x ≠ '\x22') :
    matchLink ('<' :: 'l' :: 'i' :: 'n' :: 'k' :: ':' :: s) = none := by
  cases s with
  | nil => rfl
  | cons c s2 =>
    have hc : c ≠ '\x22' := h c (List.mem_cons_self c s2)
    rw [matchLink.eq_def]
    split
    · next heq =>
      exfalso
      simp only [List.cons.injEq] at heq
      exact hc heq.2.2.2.2.2.2.1
    · rfl

theorem scanStep_link_of {c : Char} {rest t u r : List Char}
    (h : matchLink (c :: rest) = some (t, u, r)) :
    scanStep true c rest = .link t u r := by
  unfold scanStep
  simp [h]

/-- The scan step on `**` followed by a star-free remainder: the two opening
asterisks pair with each other as an empty single-`*` bold marker. -/
theorem scanStep_starstar {al : Bool} {s : List Char} (h : '*' ∉ s) :
    scanStep al '*' ('*' :: s) = .bold [] s := by
  rw [scanStep_eq_star (matchLink_none_of_head (by decide))]
  unfold starStep
  rw [if_pos rfl]
  show (match splitStarStar s with
        | some p => ScanStep.bold p.1 p.2
        | none =>
          match takeUntil '*' ('*' :: s) with
          | some p => ScanStep.bold p.1 p.2
          | none => ScanStep.lit '*' ('*' :: s)) = ScanStep.bold [] s
  rw [splitStarStar_none_of_no_star s h]
  show (match takeUntil '*' ('*' :: s) with
        | some p => ScanStep.bold p.1 p.2
        | none => ScanStep.lit '*' ('*' :: s)) = ScanStep.bold [] s
  rw [takeUntil, if_pos rfl]

/-! ## Claim C9 — termination of the inline renderer -/

/-- C9: the inline-markup renderer terminates on every input with no nesting
bound: every marker branch of the scanner hands strictly shorter substrings to
the recursion (the first three conjuncts), and consequently the renderer is
computed by a recursion whose depth is bounded by the input length (the fuel
evaluator agrees at fuel = length). -/
theorem C9_render_inline_terminates :
    (∀ (s t u r : List Char), matchLink s = some (t, u, r) →
      t.length < s.length ∧ r.length < s.length) ∧
    (∀ (al : Bool) (c : Char) (rest inner after : List Char),
      scanStep al c rest = .bold inner after →
      inner.length < (c :: rest).length ∧ after.length < (c :: rest).length) ∧
    (∀ (al : Bool) (c : Char) (rest : List Char) (c2 : Char) (rest2 : List Char),
      scanStep al c rest = .lit c2 rest2 → rest2.length < (c :: rest).length) ∧
    (∀ (text : List Char) (al : Bool), render_inline text al = renderInlineF text.length text al) := by
  refine ⟨?_, ?_, ?_, render_inline_eval⟩
  · intro s t u r h
    have := matchLink_length h
    omega
  · intro al c rest inner after h
    have := scanStep_bold h
    simp at this ⊢
    omega
  · intro al c rest c2 rest2 h
    have := (scanStep_lit h).2
    subst this
    simp

/-- Witness for C9 at concrete inputs: one link match, one bold match and one
literal step, each decreasing. -/
theorem C9_witness :
    (matchLink (("<link:\x22a\x22=u>xy").data) = some (['a'], ['u'], ['x', 'y']) ∧
      (['a'] : List Char).length < (("<link:\x22a\x22=u>xy").data).length ∧
      (['x', 'y'] : List Char).length < (("<link:\x22a\x22=u>xy").data).length) ∧
    (scanStep true '*' (("b*c").data) = .bold ['b'] ['c'] ∧
      (['b'] : List Char).length < ('*' :: ("b*c").data).length ∧
      (['c'] : List Char).length < ('*' :: ("b*c").data).length) ∧
    (scanStep true 'z' [] = .lit 'z' [] ∧ ([] : List Char).length < ('z' :: ([] : List Char)).length) := by
  constructor
  · constructor
    · decide
    · exact C9_render_inline_terminates.1 (("<link:\x22a\x22=u>xy").data) ['a'] ['u'] ['x', 'y']
        (by decide)
  constructor
  · constructor
    · decide
    · exact C9_render_inline_terminates.2.1 true '*' (("b*c").data) ['b'] ['c'] (by decide)
  constructor
  · decide
  · exact C9_render_inline_terminates.2.2.1 true 'z' [] 'z' [] (by decide)

/-! ## Claim C1 — unterminated markers -/

/-- C1 (counterexample): on the spec's own example `**oops` the renderer does
not escape the two asterisks literally; the second `*` of the opener closes a
single-`*` marker with empty content, so the output is
`<strong></strong>oops`, not the literal escape `**oops`. -/
theorem C1_counterexample :
    render_inline (("**oops").data) true = ("<strong></strong>oops").data ∧
    render_inline (("**oops").data) true ≠ esc (("**oops").data) := by
  constructor
  · rw [render_inline_eval]
    decide
  · rw [render_inline_eval]
    decide

/-- C1 (amended): for a remainder `s` free of `*`, `<` and `"`, an
unterminated single `*` marker and an unterminated `<link:` marker fall
through to literal character-by-character escaping of the marker and all
following text; an unterminated `**` marker instead consumes its two
asterisks as an empty single-`*` bold pair, rendering `<strong></strong>`
followed by the literal escape of the remainder. -/
theorem C1_unterminated (s : List Char)
    (h : ∀ x ∈ s, x ≠ '*' ∧ x ≠ '<' ∧ x ≠ '\x22') :
    render_inline ('*' :: s) true = esc ('*' :: s) ∧
    render_inline (("<link:").data ++ s) true = esc (("<link:").data ++ s) ∧
    render_inline ('*' :: '*' :: s) true = ("<strong></strong>").data ++ esc s := by
  have hstar : '*' ∉ s := fun hm => (h '*' hm).1 rfl
  have hplain : ∀ x ∈ s, x ≠ '*' ∧ x ≠ '<' := fun x hx => ⟨(h x hx).1, (h x hx).2.1⟩
  have hmf : marker_free s = true := marker_free_of_plain s hplain
  refine ⟨?_, ?_, ?_⟩
  · have hml : matchLink ('*' :: s) = none := matchLink_none_of_head (by decide)
    have hlit : scanStep true '*' s = .lit '*' s :=
      scanStep_lit_of hml (fun hp => hstar hp.2)
    rw [render_inline_lit_eq hlit, render_inline_marker_free s true hmf, esc_cons]
  · have heq : ("<link:").data ++ s = '<' :: 'l' :: 'i' :: 'n' :: 'k' :: ':' :: s := rfl
    rw [heq]
    have hml : matchLink ('<' :: 'l' :: 'i' :: 'n' :: 'k' :: ':' :: s) = none :=
      matchLink_no_quote fun x hx => (h x hx).2.2
    have hlit : scanStep true '<' ('l' :: 'i' :: 'n' :: 'k' :: ':' :: s)
        = .lit '<' ('l' :: 'i' :: 'n' :: 'k' :: ':' :: s) :=
      scanStep_lit_of hml (by intro hp; exact absurd hp.1 (by decide))
    rw [render_inline_lit_eq hlit]
    have hmf2 : marker_free ('l' :: 'i' :: 'n' :: 'k' :: ':' :: s) = true := by
      refine marker_free_of_plain _ ?_
      intro x hx
      simp only [List.mem_cons] at hx
      rcases hx with rfl | rfl | rfl | rfl | rfl | hx
      · exact ⟨by decide, by decide⟩
      · exact ⟨by decide, by decide⟩
      · exact ⟨by decide, by decide⟩
      · exact ⟨by decide, by decide⟩
      · exact ⟨by decide, by decide⟩
      · exact hplain x hx
    rw [render_inline_marker_free _ true hmf2]
    simp [esc]
  · rw [render_inline_bold_eq (scanStep_starstar hstar), render_inline_nil,
      render_inline_marker_free s true hmf]
    rw [List.append_nil]
    have hsplit : (("<strong>").data : List Char) ++ ("</strong>").data
        = ("<strong></strong>").data := by decide
    rw [← hsplit, List.append_assoc]

/-- Witness for C1 (amended) at the remainder `oops`. -/
theorem C1_witness :
    (∀ x ∈ (("oops").data : List Char), x ≠ '*' ∧ x ≠ '<' ∧ x ≠ '\x22') ∧
    render_inline ('*' :: ("oops").data) true = esc ('*' :: ("oops").data) ∧
    render_inline (("<link:").data ++ ("oops").data) true
      = esc (("<link:").data ++ ("oops").data) ∧
    render_inline ('*' :: '*' :: ("oops").data) true
      = ("<strong></strong>").data ++ esc (("oops").data) :=
  ⟨by decide, C1_unterminated (("oops").data) (by decide)⟩

theorem ltFollowOk_no_anchor :
    ∀ (pre post : List Char), ltFollowOk (pre ++ '<' :: 'a' :: post) ≠ true := by
  intro pre
  induction pre with
  | nil =>
    intro post h
    rw [List.nil_append, ltFollowOk, if_pos rfl] at h
    simp [ltHeadOk] at h
  | cons c pre2 ih =>
    intro post h
    rw [List.cons_append, ltFollowOk] at h
    by_cases hc : c = '<'
    · rw [if_pos hc, Bool.and_eq_true] at h
      exact ih post h.2
    · rw [if_neg hc] at h
      exact ih post h

/-! ## Claim C6 — escaping on marker-free text -/

/-- C6: on any input on which no markup marker fires, the renderer is exactly
the HTML escape `esc`; the escaped output carries no raw `<`, `>` or `"`, and
every `&` in it heads one of the five escape entities (so metacharacters
appear only in entity-escaped form); applying the escape again to the same
plain text reproduces the same result as the renderer under either link
mode. -/
theorem C6_escape_plain (s : List Char) (hm : marker_free s = true) :
    render_inline s true = esc s ∧
    (∀ d ∈ esc s, d ≠ '<' ∧ d ≠ '>' ∧ d ≠ '\x22') ∧
    ampOk (esc s) = true ∧
    render_inline s false = esc s :=
  ⟨render_inline_marker_free s true hm, esc_no_raw, ampOk_esc s,
    render_inline_marker_free s false hm⟩

/-- Witness for C6 on a plain string containing all four metacharacters. -/
theorem C6_witness :
    marker_free (("a <b> & \x22q\x22").data) = true ∧
    (render_inline (("a <b> & \x22q\x22").data) true = esc (("a <b> & \x22q\x22").data) ∧
      (∀ d ∈ esc (("a <b> & \x22q\x22").data), d ≠ '<' ∧ d ≠ '>' ∧ d ≠ '\x22') ∧
      ampOk (esc (("a <b> & \x22q\x22").data)) = true ∧
      render_inline (("a <b> & \x22q\x22").data) false = esc (("a <b> & \x22q\x22").data)) :=
  ⟨by decide, C6_escape_plain (("a <b> & \x22q\x22").data) (by decide)⟩

/-! ## Claim C8 — link markers -/

/-- C8: a matched link marker renders as an anchor opening in a new tab whose
visible content is the link text rendered with links disabled, and that
recursively rendered text never contains a nested anchor opening `<a`. -/
theorem C8_link_marker {c : Char} {rest t u r : List Char}
    (h : matchLink (c :: rest) = some (t, u, r)) :
    render_inline (c :: rest) true =
      ("<a href=\x22").data ++ esc (pyStrip u)
        ++ ("\x22 target=\x22_blank\x22 rel=\x22noopener\x22>").data
        ++ render_inline t false ++ ("</a>").data ++ render_inline r true ∧
    ¬ (['<', 'a'] <:+: render_inline t false) := by
  constructor
  · exact render_inline_link_eq (scanStep_link_of h)
  · intro hinf
    obtain ⟨pre, post, hpp⟩ := hinf
    have hok := ltFollowOk_render t
    rw [← hpp] at hok
    have : pre ++ ['<', 'a'] ++ post = pre ++ '<' :: 'a' :: post := by simp
    rw [this] at hok
    exact ltFollowOk_no_anchor pre post hok

/-- Witness for C8 on the marker `<link:"go **b**"=http://x>!`. -/
theorem C8_witness :
    matchLink ('<' :: ("link:\x22go **b**\x22=http://x>!").data)
      = some (("go **b**").data, ("http://x").data, ['!']) ∧
    (render_inline ('<' :: ("link:\x22go **b**\x22=http://x>!").data) true =
      ("<a href=\x22").data ++ esc (pyStrip (("http://x").data))
        ++ ("\x22 target=\x22_blank\x22 rel=\x22noopener\x22>").data
        ++ render_inline (("go **b**").data) false ++ ("</a>").data
        ++ render_inline ['!'] true ∧
      ¬ (['<', 'a'] <:+: render_inline (("go **b**").data) false)) :=
  ⟨by decide, C8_link_marker (by decide)⟩

/-! ## Claim C7 — `read_text` decoding chain -/

/-- C7: `read_text` tries `utf-8-sig`, then `cp1252`, then `latin-1`, in that
priority order, and returns the first successful decode; the `latin-1` codec
accepts every byte string, so the chain (and hence the replacement-decoding
fallback behind it) guarantees a result for every input — the function is
total and never raises. -/
theorem C7_read_text (bs : List (Fin 256)) :
    (∀ s, utf8_sig_decode bs = some s → read_text bs = s) ∧
    (utf8_sig_decode bs = none → ∀ s, cp1252_decode bs = some s → read_text bs = s) ∧
    (utf8_sig_decode bs = none → cp1252_decode bs = none →
      read_text bs = bs.map fun b => Char.ofNat b.val) ∧
    (latin1_decode bs).isSome = true := by
  refine ⟨?_, ?_, ?_, rfl⟩
  · intro s h
    unfold read_text
    rw [h]
  · intro h1 s h2
    unfold read_text
    rw [h1, h2]
  · intro h1 h2
    unfold read_text
    rw [h1, h2]
    rfl

/-- Witness for C7: a BOM-prefixed UTF-8 file, a cp1252-only file and a file
whose bytes only latin-1 accepts, each decoded by the promised stage. -/
theorem C7_witness :
    (utf8_sig_decode [0xEF, 0xBB, 0xBF, 0x41] = some ['A'] ∧
      read_text [0xEF, 0xBB, 0xBF, 0x41] = ['A']) ∧
    (utf8_sig_decode [0xE9] = none ∧ cp1252_decode [0xE9] = some [Char.ofNat 0xE9] ∧
      read_text [0xE9] = [Char.ofNat 0xE9]) ∧
    (utf8_sig_decode [0x81] = none ∧ cp1252_decode [0x81] = none ∧
      read_text [0x81] = [Char.ofNat 0x81] ∧
      (latin1_decode [0x81]).isSome = true) := by
  refine ⟨⟨by decide, ?_⟩, ⟨by decide, by decide, ?_⟩, ⟨by decide, by decide, ?_, ?_⟩⟩
  · exact (C7_read_text [0xEF, 0xBB, 0xBF, 0x41]).1 ['A'] (by decide)
  · exact (C7_read_text [0xE9]).2.1 (by decide) [Char.ofNat 0xE9] (by decide)
  · have := (C7_read_text [0x81]).2.2.1 (by decide) (by decide)
    rw [this]
    decide
  · exact (C7_read_text [0x81]).2.2.2

/-! ## Claim C2 — the registration block -/

theorem joinNl_singleton (x : List Char) : joinNl [x] = x := by
  simp [joinNl, List.intercalate]

/-- C2: for the lexicographically first `REGISTRO*.txt` file with at least one
non-blank line, the parsed block keeps exactly the first non-blank line as its
single heading line (rendered as the block's text paragraph) and every
remaining non-blank line in `buttons`, each rendered through the optional
`text <url>` parse `registro_button_of`. -/
theorem C2_registro (files : List RFile) (f : RFile) (l0 : List Char) (rest : List (List Char))
    (hsel : ((files.filter fun g => registroGlob g.name).insertionSort fileLe).head? = some f)
    (hlines : cleanLines f.content = l0 :: rest) :
    parse_registro files = some { title := stem f.name, lines := [l0], buttons := rest } ∧
    registro_html (parse_registro files) =
      ("<section class=\x22registro-band\x22 data-animate=\x223\x22>").data
        ++ ("<div class=\x22registro\x22>").data
        ++ ("<div class=\x22registro-media\x22>").data
        ++ ("<img src=\x22assets/img/plataforma.png\x22 alt=\x22Plataforma\x22>").data
        ++ ("</div>").data
        ++ ("<div class=\x22registro-text\x22>").data
        ++ ("<p class=\x22registro-title\x22>").data ++ esc (stem f.name) ++ ("</p>").data
        ++ (("<p>").data ++ render_inline l0 true ++ ("</p>").data)
        ++ (if rest ≠ [] then
              if rest.filterMap registro_button_of ≠ [] then
                ("<div class=\x22registro-buttons\x22>").data
                  ++ (rest.filterMap registro_button_of).flatten ++ ("</div>").data
              else []
            else [])
        ++ ("</div>").data ++ ("</div>").data ++ ("</section>").data := by
  have h1 : parse_registro files
      = some { title := stem f.name, lines := [l0], buttons := rest } := by
    unfold parse_registro
    cases hms : (files.filter fun g => registroGlob g.name).insertionSort fileLe with
    | nil => rw [hms] at hsel; exact absurd hsel (by simp)
    | cons f2 t =>
      rw [hms] at hsel
      simp only [List.head?_cons, Option.some.injEq] at hsel
      subst hsel
      simp only [hlines]
  refine ⟨h1, ?_⟩
  rw [h1]
  simp only [registro_html, List.map_cons, List.map_nil, joinNl_singleton]

/-- Witness for C2: among `REGISTROB.txt` and `REGISTROA.txt` (listed in that
enumeration order) the lexicographically first file `REGISTROA.txt` is chosen,
its first non-blank line becomes the heading line and the remaining line the
button list. -/
theorem C2_witness :
    ((([⟨("REGISTROB.txt").data, ("zz").data⟩,
        ⟨("REGISTROA.txt").data, ("Head\nBtn <http://x>").data⟩] : List RFile).filter
          fun g => registroGlob g.name).insertionSort fileLe).head?
        = some ⟨("REGISTROA.txt").data, ("Head\nBtn <http://x>").data⟩ ∧
    cleanLines (("Head\nBtn <http://x>").data)
      = [("Head").data, ("Btn <http://x>").data] ∧
    parse_registro [⟨("REGISTROB.txt").data, ("zz").data⟩,
        ⟨("REGISTROA.txt").data, ("Head\nBtn <http://x>").data⟩]
      = some ⟨stem (("REGISTROA.txt").data), [("Head").data], [("Btn <http://x>").data]⟩ :=
  ⟨by decide, by decide,
    (C2_registro
      [⟨("REGISTROB.txt").data, ("zz").data⟩,
        ⟨("REGISTROA.txt").data, ("Head\nBtn <http://x>").data⟩]
      ⟨("REGISTROA.txt").data, ("Head\nBtn <http://x>").data⟩
      (("Head").data) [("Btn <http://x>").data]
      (by decide) (by decide)).1⟩


/-! ## Claim C4 — accordion ordering and default expansion -/

/-- Associativity-normalised decomposition of one accordion entry, isolating
the `aria-expanded` attribute between its surrounding template text. -/
theorem sec_item_decomp (idx : Nat) (s : Sect) :
    sec_item_html idx s =
      (("<div class=\x22sec-item\x22>").data ++ ("<button id=\x22").data
        ++ (sec_id_of s ++ ("-btn").data) ++ ("\x22 class=\x22sec-btn").data ++ active_class idx)
      ++ (("\x22 aria-expanded=\x22").data ++ aria_expanded_attr idx
        ++ ("\x22 aria-controls=\x22").data)
      ++ (sec_id_of s ++ ("\x22 data-target=\x22").data ++ sec_id_of s ++ ("\x22>").data
        ++ ("<span class=\x22sec-title\x22>").data ++ esc s.title ++ ("</span>").data
        ++ ("<span class=\x22sec-arrow\x22 aria-hidden=\x22true\x22>></span>").data
        ++ ("</button>").data
        ++ ("<div id=\x22").data ++ sec_id_of s
        ++ ("\x22 class=\x22sec-panel").data ++ active_class idx
        ++ ("\x22 role=\x22region\x22 aria-labelledby=\x22").data ++ (sec_id_of s ++ ("-btn").data)
        ++ ("\x22 aria-hidden=\x22").data ++ aria_hidden_attr idx
        ++ ("\x22>").data
        ++ ("<ul>\n").data
        ++ pyOr (joinNl (s.items.map fun item =>
            if pyStrip item.url ≠ [] then
              ("<li><a href=\x22").data ++ esc (pyStrip item.url)
                ++ ("\x22 target=\x22_blank\x22 rel=\x22noopener\x22>").data
                ++ esc item.text ++ ("</a></li>").data
            else ("<li><span>").data ++ esc item.text ++ ("</span></li>").data))
          (("<li><span></span></li>").data)
        ++ ("\n</ul></div>").data
        ++ ("</div>").data) := by
  simp only [sec_item_html, List.append_assoc]

/-- C4: the parsed sections are sorted by the integer order parsed from the
filename (for every enumeration order of the directory), the accordion renders
them with `enumerate` indices in that sorted order, and the `is-active` /
`aria-expanded="true"` marks are produced exactly at index 0, i.e. for the
first section in sorted order. -/
theorem C4_accordion (files : Option (List RFile)) :
    List.Pairwise secLe (parse_sections files) ∧
    (∀ (s : Sect) (rest : List Sect), parse_sections files = s :: rest →
      accordion_items (s :: rest)
        = sec_item_html 0 s :: (rest.enumFrom 1).map fun p => sec_item_html p.1 p.2) ∧
    aria_expanded_attr 0 = ("true").data ∧
    (∀ idx : Nat, idx ≠ 0 → aria_expanded_attr idx = ("false").data) ∧
    active_class 0 = (" is-active").data ∧
    (∀ idx : Nat, idx ≠ 0 → active_class idx = []) ∧
    (∀ (s : Sect) (rest : List Sect), parse_sections files = s :: rest →
      (("aria-expanded=\x22true\x22").data) <:+: sec_item_html 0 s) := by
  refine ⟨?_, ?_, rfl, ?_, rfl, ?_, ?_⟩
  · unfold parse_sections
    cases files with
    | none => exact List.Pairwise.nil
    | some fs => exact List.sorted_insertionSort secLe _
  · intro s rest _
    rfl
  · intro idx h
    unfold aria_expanded_attr
    rw [if_neg h]
  · intro idx h
    unfold active_class
    rw [if_neg h]
  · intro s rest _
    have h1 : (("aria-expanded=\x22true\x22").data : List Char)
        <:+: (("\x22 aria-expanded=\x22").data ++ aria_expanded_attr 0
          ++ ("\x22 aria-controls=\x22").data) := by decide
    refine h1.trans ?_
    rw [sec_item_decomp]
    exact List.infix_append _ _ _

/-- Witness for C4: files `Des2-B.txt`, `Des1-A.txt` enumerated in that order
parse to section A (order 1) before section B (order 2); the first rendered
entry is A's and carries `aria-expanded="true"`, index 1 renders `"false"`. -/
theorem C4_witness :
    parse_sections (some [⟨("Des2-B.txt").data, ("item b").data⟩,
        ⟨("Des1-A.txt").data, ("x <http://u>").data⟩])
      = [⟨1, ("A").data, [⟨("x").data, ("http://u").data⟩]⟩,
         ⟨2, ("B").data, [⟨("item b").data, []⟩]⟩] ∧
    accordion_items [⟨1, ("A").data, [⟨("x").data, ("http://u").data⟩]⟩,
        ⟨2, ("B").data, [⟨("item b").data, []⟩]⟩]
      = sec_item_html 0 ⟨1, ("A").data, [⟨("x").data, ("http://u").data⟩]⟩
        :: ([(⟨2, ("B").data, [⟨("item b").data, []⟩]⟩ : Sect)].enumFrom 1).map
            (fun p => sec_item_html p.1 p.2) ∧
    (("aria-expanded=\x22true\x22").data)
      <:+: sec_item_html 0 ⟨1, ("A").data, [⟨("x").data, ("http://u").data⟩]⟩ ∧
    aria_expanded_attr 1 = ("false").data := by
  refine ⟨by decide, ?_, ?_, ?_⟩
  · exact (C4_accordion (some [⟨("Des2-B.txt").data, ("item b").data⟩,
      ⟨("Des1-A.txt").data, ("x <http://u>").data⟩])).2.1
      ⟨1, ("A").data, [⟨("x").data, ("http://u").data⟩]⟩
      [⟨2, ("B").data, [⟨("item b").data, []⟩]⟩] (by decide)
  · exact (C4_accordion (some [⟨("Des2-B.txt").data, ("item b").data⟩,
      ⟨("Des1-A.txt").data, ("x <http://u>").data⟩])).2.2.2.2.2.2
      ⟨1, ("A").data, [⟨("x").data, ("http://u").data⟩]⟩
      [⟨2, ("B").data, [⟨("item b").data, []⟩]⟩] (by decide)
  · exact (C4_accordion none).2.2.2.1 1 (by decide)

/-! ## Claim C5 — footer cross-reference resolution -/

/-- C5: the footer is split on bracketed `<LABEL>` parts; a bracketed label is
resolved by normalising the stripped label and each section title
(`normalize_text`: NFD decomposition, combining-mark removal, lower-casing,
removal of non-alphanumerics) and testing substring containment; the first
matching section in section order supplies the `data-open="sec-NN"` target,
and with no match the label renders as plain inline markup with the angle
brackets removed.  Normalisation is an append homomorphism and the resolution
depends only on the normalised label, so labels differing in accents, case or
punctuation resolve identically. -/
theorem C5_footer_resolution :
    (∀ (text : List Char) (sections : List Sect), text ≠ [] →
      render_footer_with_section_links text sections
        = ((splitAngle text).map (renderPart sections)).flatten) ∧
    (∀ (sections : List Sect) (label : List Char) (sec : Sect),
      sections.find? (fun s2 => !(normalize_text (pyStrip label)).isEmpty
          && isSubstr (normalize_text (pyStrip label)) (normalize_text s2.title)) = some sec →
      renderPart sections ('<' :: (label ++ ['>']))
        = ("<a class=\x22indicator-link\x22 href=\x22#\x22 data-open=\x22").data
          ++ (("sec-").data ++ pad02 sec.order) ++ ("\x22>").data
          ++ render_inline (pyStrip label) true ++ ("</a>").data) ∧
    (∀ (sections : List Sect) (label : List Char),
      sections.find? (fun s2 => !(normalize_text (pyStrip label)).isEmpty
          && isSubstr (normalize_text (pyStrip label)) (normalize_text s2.title)) = none →
      renderPart sections ('<' :: (label ++ ['>'])) = render_inline (pyStrip label) true) ∧
    (∀ s t : List Char, normalize_text (s ++ t) = normalize_text s ++ normalize_text t) ∧
    (∀ (sections : List Sect) (l1 l2 : List Char),
      normalize_text (pyStrip l1) = normalize_text (pyStrip l2) →
      sections.find? (fun s2 => !(normalize_text (pyStrip l1)).isEmpty
          && isSubstr (normalize_text (pyStrip l1)) (normalize_text s2.title))
        = sections.find? (fun s2 => !(normalize_text (pyStrip l2)).isEmpty
          && isSubstr (normalize_text (pyStrip l2)) (normalize_text s2.title))) := by
  have hpart : ∀ (label : List Char),
      ('<' :: (label ++ ['>'])).head? = some '<' ∧
      ('<' :: (label ++ ['>'])).getLast? = some '>' ∧
      (('<' :: (label ++ ['>'])).drop 1).dropLast = label := by
    intro label
    refine ⟨rfl, ?_, ?_⟩
    · show ('<' :: (label ++ ['>'])).getLast? = some '>'
      rw [show '<' :: (label ++ ['>']) = ('<' :: label) ++ ['>'] from rfl]
      rw [List.getLast?_concat]
    · show (label ++ ['>']).dropLast = label
      rw [List.dropLast_concat]
  refine ⟨?_, ?_, ?_, ?_, ?_⟩
  · intro text sections ht
    unfold render_footer_with_section_links
    rw [if_neg ht]
  · intro sections label sec hfind
    unfold renderPart
    rw [if_pos ⟨(hpart label).1, (hpart label).2.1⟩]
    simp only [(hpart label).2.2]
    rw [hfind]
  · intro sections label hfind
    unfold renderPart
    rw [if_pos ⟨(hpart label).1, (hpart label).2.1⟩]
    simp only [(hpart label).2.2]
    rw [hfind]
  · intro s t
    simp [normalize_text, List.filter_append]
  · intro sections l1 l2 h
    rw [h]

/-- Witness for C5: `<Cobertura>` resolves to the section titled
"Cobertura Nacional" (order 3, so target `sec-03`), an accented upper-case
punctuated variant of the label normalises identically and hence resolves to
the same section, and an unmatched label renders as plain inline markup. -/
theorem C5_witness :
    ([⟨3, ("Cobertura Nacional").data, []⟩] : List Sect).find?
        (fun s2 => !(normalize_text (pyStrip (("Cobertura").data))).isEmpty
          && isSubstr (normalize_text (pyStrip (("Cobertura").data))) (normalize_text s2.title))
      = some ⟨3, ("Cobertura Nacional").data, []⟩ ∧
    renderPart [⟨3, ("Cobertura Nacional").data, []⟩] ('<' :: ((("Cobertura").data) ++ ['>']))
      = ("<a class=\x22indicator-link\x22 href=\x22#\x22 data-open=\x22").data
        ++ (("sec-").data ++ pad02 3) ++ ("\x22>").data
        ++ render_inline (pyStrip (("Cobertura").data)) true ++ ("</a>").data ∧
    normalize_text (pyStrip (("CÓBERTURA!").data))
      = normalize_text (pyStrip (("Cobertura").data)) ∧
    ([⟨3, ("Cobertura Nacional").data, []⟩] : List Sect).find?
        (fun s2 => !(normalize_text (pyStrip (("CÓBERTURA!").data))).isEmpty
          && isSubstr (normalize_text (pyStrip (("CÓBERTURA!").data)))
            (normalize_text s2.title))
      = some ⟨3, ("Cobertura Nacional").data, []⟩ ∧
    ([] : List Sect).find?
        (fun s2 => !(normalize_text (pyStrip (("Nada").data))).isEmpty
          && isSubstr (normalize_text (pyStrip (("Nada").data))) (normalize_text s2.title))
      = none ∧
    renderPart [] ('<' :: ((("Nada").data) ++ ['>']))
      = render_inline (pyStrip (("Nada").data)) true := by
  refine ⟨by decide, ?_, by decide, ?_, by decide, ?_⟩
  · exact C5_footer_resolution.2.1 [⟨3, ("Cobertura Nacional").data, []⟩] (("Cobertura").data)
      ⟨3, ("Cobertura Nacional").data, []⟩ (by decide)
  · rw [C5_footer_resolution.2.2.2.2 [⟨3, ("Cobertura Nacional").data, []⟩]
      (("CÓBERTURA!").data) (("Cobertura").data) (by decide)]
    decide
  · exact C5_footer_resolution.2.2.1 [] (("Nada").data) (by decide)

/-! ## Claim C10 — beneficiary block with a URL-less last line -/

/-- Every line produced by `cleanLines` is non-blank. -/
theorem cleanLines_ne_nil {s : List Char} : ∀ x ∈ cleanLines s, x ≠ [] := by
  intro x hx
  have := (List.mem_filter.mp hx).2
  simpa using this

/-- C10: with three or more non-blank lines whose last line carries no
`<url>` suffix, the last line is removed from the paragraph lines and yields
no button: the rendered block is fully determined by the other lines (the
right-hand side below does not mention `b`), so the removed line contributes
nothing to the output. -/
theorem C10_beneficiarios_last_line (txt l0 : List Char) (lrest : List (List Char)) (b : List Char)
    (hlines : cleanLines txt = l0 :: (lrest ++ [b]))
    (hrest : lrest ≠ [])
    (hnourl : (split_full_link b).2 = none) :
    parse_beneficiarios (some txt)
      = some ⟨("BENEFICIARIOS").data, l0, lrest, b⟩ ∧
    beneficiarios_html (parse_beneficiarios (some txt)) =
      ("<section class=\x22beneficiarios\x22 data-animate=\x223\x22>").data
        ++ ("<div class=\x22beneficiarios-text\x22>").data
        ++ ("<p class=\x22beneficiarios-title\x22>").data ++ esc (("BENEFICIARIOS").data)
        ++ ("</p>").data
        ++ ("<p class=\x22beneficiarios-lead\x22>").data ++ render_inline l0 true ++ ("</p>").data
        ++ joinNl (lrest.map fun l => ("<p>").data ++ render_inline l true ++ ("</p>").data)
        ++ ("</div>").data
        ++ ("<div class=\x22beneficiarios-map\x22>").data
        ++ ("<img src=\x22assets/img/mapa.png\x22 alt=\x22Mapa\x22>").data
        ++ ("</div>").data
        ++ ("</section>").data := by
  have hb : b ≠ [] := by
    intro hb0
    have hmem : b ∈ cleanLines txt := by
      rw [hlines]
      exact List.mem_cons_of_mem _ (List.mem_append_right _ (List.mem_singleton.mpr rfl))
    exact cleanLines_ne_nil b hmem hb0
  have hlen : 2 < (l0 :: (lrest ++ [b])).length := by
    cases lrest with
    | nil => exact absurd rfl hrest
    | cons a t => simp
  have hdrop : (l0 :: (lrest ++ [b])).dropLast = l0 :: lrest := by
    rw [show l0 :: (lrest ++ [b]) = (l0 :: lrest) ++ [b] from rfl]
    rw [List.dropLast_concat]
  have hlast : pyLast (l0 :: (lrest ++ [b])) = b := by
    rw [show l0 :: (lrest ++ [b]) = (l0 :: lrest) ++ [b] from rfl]
    exact pyLast_append_singleton _ b
  have h1 : parse_beneficiarios (some txt)
      = some ⟨("BENEFICIARIOS").data, l0, lrest, b⟩ := by
    rw [parse_beneficiarios, hlines]
    simp [hlen, hdrop, hlast, hrest]
  refine ⟨h1, ?_⟩
  rw [h1]
  rcases hsp : split_full_link b with ⟨bt, u⟩
  rw [hsp] at hnourl
  simp only at hnourl
  subst hnourl
  simp only [beneficiarios_html, hsp, hb, ne_eq, not_false_iff, if_true]
  simp only [List.append_nil, List.nil_append, List.append_assoc]

/-- Witness for C10 on a three-line block whose last line has no URL. -/
theorem C10_witness :
    cleanLines (("Lead\nPara1\nUltima sin url").data)
      = ("Lead").data :: ([("Para1").data] ++ [("Ultima sin url").data]) ∧
    ([("Para1").data] : List (List Char)) ≠ [] ∧
    (split_full_link (("Ultima sin url").data)).2 = none ∧
    parse_beneficiarios (some (("Lead\nPara1\nUltima sin url").data))
      = some ⟨("BENEFICIARIOS").data, ("Lead").data, [("Para1").data],
          ("Ultima sin url").data⟩ :=
  ⟨by decide, by decide, by decide,
    (C10_beneficiarios_last_line (("Lead\nPara1\nUltima sin url").data) (("Lead").data)
      [("Para1").data] (("Ultima sin url").data) (by decide) (by decide) (by decide)).1⟩

/-! ## Claim C3 — omission of absent sections -/

/-- Template equality for a content root with every optional source absent:
only the header, hero, empty body paragraph and static template text remain;
the optional-section slots are all empty. -/
theorem build_html_absent_eq (c : Content)
    (ht : c.cuerpo = none) (hd : c.despegables = none) (hbo : c.botones = none)
    (hben : c.beneficiarios = none)
    (hreg : c.files.filter (fun f => registroGlob f.name) = [])
    (hcon : c.contacto = none) (hred : c.redes = none) :
    build_html c
      = tmpl0 ++ esc (pyOr (parse_title c.titulo).2.1
          (pyOr (parse_title c.titulo).1 (("Pagina").data)))
        ++ tmpl1 ++ esc (parse_title c.titulo).1
        ++ tmpl2 ++ esc (parse_title c.titulo).2.1
        ++ tmpl3 ++ esc (parse_title c.titulo).2.2
        ++ tmpl4 ++ choose_main_image c.png_exists c.jpg_exists
        ++ tmpl5 ++ ("<p></p>").data
        ++ tmpl6 ++ tmpl7 ++ tmpl8 ++ tmpl9 ++ tmpl10 ++ tmpl11 := by
  have h1 : parse_beneficiarios c.beneficiarios = none := by rw [hben]; rfl
  have h2 : parse_registro c.files = none := by
    unfold parse_registro
    rw [hreg]
    rfl
  have h3 : parse_contacto c.contacto = [] := by rw [hcon]; rfl
  have h4 : parse_redes c.redes = [] := by rw [hred]; rfl
  have h5 : parse_sections c.despegables = [] := by rw [hd]; rfl
  have h6 : parse_buttons c.botones = [] := by rw [hbo]; rfl
  have h7 : parse_body c.cuerpo = [] := by rw [ht]; rfl
  unfold build_html
  rw [h1, h2, h3, h4, h5, h6, h7]
  simp only [beneficiarios_html, registro_html, contacto_html, buttons_html, accordion_block,
    accordion_items, body_html_of, joinNl, List.enum, List.map_nil, List.intercalate,
    List.intersperse, List.flatten, pyOr, ne_eq, not_true_eq_false, or_self, if_false,
    List.append_nil, List.nil_append, List.append_assoc]
  simp

/-- Even with no accordion source files the rendered page keeps the empty
`sections`/`accordion` container. -/
theorem accordion_container_infix (c : Content)
    (ht : c.cuerpo = none) (hd : c.despegables = none) (hbo : c.botones = none)
    (hben : c.beneficiarios = none)
    (hreg : c.files.filter (fun f => registroGlob f.name) = [])
    (hcon : c.contacto = none) (hred : c.redes = none) :
    (("<div class=\x22accordion\x22>\n        \n      </div>").data) <:+: build_html c := by
  rw [build_html_absent_eq c ht hd hbo hben hreg hcon hred]
  have h9 : tmpl9 = (("\n\n    <section class=\x22sections\x22 data-animate=\x223\x22>\n      ").data)
      ++ (("<div class=\x22accordion\x22>\n        ").data) := by decide
  have h10 : tmpl10 = (("\n      </div>").data) ++ (("\n    </section>\n\n    ").data) := by decide
  have htgt : (("<div class=\x22accordion\x22>\n        \n      </div>").data : List Char)
      = (("<div class=\x22accordion\x22>\n        ").data) ++ (("\n      </div>").data) := by decide
  rw [h9, h10, htgt]
  refine ⟨tmpl0 ++ esc (pyOr (parse_title c.titulo).2.1
      (pyOr (parse_title c.titulo).1 (("Pagina").data)))
    ++ tmpl1 ++ esc (parse_title c.titulo).1
    ++ tmpl2 ++ esc (parse_title c.titulo).2.1
    ++ tmpl3 ++ esc (parse_title c.titulo).2.2
    ++ tmpl4 ++ choose_main_image c.png_exists c.jpg_exists
    ++ tmpl5 ++ ("<p></p>").data
    ++ tmpl6 ++ tmpl7 ++ tmpl8
    ++ (("\n\n    <section class=\x22sections\x22 data-animate=\x223\x22>\n      ").data),
    (("\n    </section>\n\n    ").data) ++ tmpl11, ?_⟩
  simp only [List.append_assoc]

/-- A content root with every optional file and directory absent. -/
def emptyContent : Content :=
  ⟨none, none, none, none, none, [], none, none, true, false⟩

/-- C3 (counterexample): for a content root with no accordion section files
(and no other optional content), the rendered page still contains the empty
`<div class="accordion">...</div>` container — an empty container element for
an absent section, contradicting the claim that only the body section leaves
such a trace. -/
theorem C3_counterexample :
    emptyContent.despegables = none ∧
    (("<div class=\x22accordion\x22>\n        \n      </div>").data)
      <:+: build_html emptyContent :=
  ⟨rfl, accordion_container_infix emptyContent rfl rfl rfl rfl rfl rfl rfl⟩

/-- C3 (amended): when every optional section's source data is absent, the
beneficiary, registration, contact and button-group sections are omitted
entirely (their fragments are empty strings, so no container is emitted), the
body section still renders one empty paragraph, and the page reduces to the
static template around those empty slots; the accordion wrapper is a second
exception — its `sections`/`accordion` container is always emitted, empty
when there are no section files. -/
theorem C3_absent_sections (c : Content)
    (ht : c.cuerpo = none) (hd : c.despegables = none) (hbo : c.botones = none)
    (hben : c.beneficiarios = none)
    (hreg : c.files.filter (fun f => registroGlob f.name) = [])
    (hcon : c.contacto = none) (hred : c.redes = none) :
    beneficiarios_html (parse_beneficiarios c.beneficiarios) = [] ∧
    registro_html (parse_registro c.files) = [] ∧
    contacto_html (parse_contacto c.contacto) (parse_redes c.redes) = [] ∧
    buttons_html (parse_buttons c.botones) (parse_sections c.despegables) = [] ∧
    accordion_block (parse_sections c.despegables) = [] ∧
    body_html_of (parse_body c.cuerpo) = ("<p></p>").data ∧
    build_html c
      = tmpl0 ++ esc (pyOr (parse_title c.titulo).2.1
          (pyOr (parse_title c.titulo).1 (("Pagina").data)))
        ++ tmpl1 ++ esc (parse_title c.titulo).1
        ++ tmpl2 ++ esc (parse_title c.titulo).2.1
        ++ tmpl3 ++ esc (parse_title c.titulo).2.2
        ++ tmpl4 ++ choose_main_image c.png_exists c.jpg_exists
        ++ tmpl5 ++ ("<p></p>").data
        ++ tmpl6 ++ tmpl7 ++ tmpl8 ++ tmpl9 ++ tmpl10 ++ tmpl11 ∧
    (("<div class=\x22accordion\x22>\n        \n      </div>").data) <:+: build_html c := by
  refine ⟨?_, ?_, ?_, ?_, ?_, ?_,
    build_html_absent_eq c ht hd hbo hben hreg hcon hred,
    accordion_container_infix c ht hd hbo hben hreg hcon hred⟩
  · rw [hben]; rfl
  · unfold parse_registro
    rw [hreg]
    rfl
  · rw [hcon, hred]; rfl
  · rw [hbo]; rfl
  · rw [hd]; rfl
  · rw [ht]; rfl

/-- Witness for C3 (amended) at the fully empty content root. -/
theorem C3_witness :
    emptyContent.cuerpo = none ∧
    emptyContent.files.filter (fun f => registroGlob f.name) = [] ∧
    beneficiarios_html (parse_beneficiarios emptyContent.beneficiarios) = [] ∧
    registro_html (parse_registro emptyContent.files) = [] ∧
    contacto_html (parse_contacto emptyContent.contacto) (parse_redes emptyContent.redes) = [] ∧
    buttons_html (parse_buttons emptyContent.botones) (parse_sections emptyContent.despegables)
      = [] ∧
    accordion_block (parse_sections emptyContent.despegables) = [] ∧
    body_html_of (parse_body emptyContent.cuerpo) = ("<p></p>").data := by
  have h := C3_absent_sections emptyContent rfl rfl rfl rfl rfl rfl rfl
  exact ⟨rfl, rfl, h.1, h.2.1, h.2.2.1, h.2.2.2.1, h.2.2.2.2.1, h.2.2.2.2.2.1⟩
